import Mathlib

/-!
# Verification of the codex-transcript-viewer extraction and rendering pipeline

This file gives a shallow embedding of the Python sources
`parser.py`, `formatting.py`, `markdown.py` and `html_builder.py` of the
`codex-transcript-viewer` repository, and proves (or refutes) the stated
properties of the specification against that embedding.

JSON values are modelled by the inductive type `Json` (numbers restricted to
integers; the claims under study do not depend on fractional values).
Python operations that can raise are modelled in the `Except PyErr` monad:
attribute access on a non-dict raises `AttributeError`, unsupported
operations raise `TypeError`.  Field access with a default
(`d.get(k, default)`) is `Json.objGetD`.
-/

/-- A decoded JSON value (Python object produced by `json.loads`).
Numbers are modelled as integers. -/
inductive Json where
  | null : Json
  | bool : Bool → Json
  | num : Int → Json
  | str : String → Json
  | arr : List Json → Json
  | obj : List (String × Json) → Json

/-- The Python exceptions the embedded code can raise. -/
inductive PyErr where
  | attributeError : PyErr
  | typeError : PyErr

/-- `d.get(k, default)` — dictionary access with a default.  Raises
`AttributeError` when the receiver is not a dict (this is what Python does
for every non-dict JSON value, including `None`). -/
def Json.objGetD (j : Json) (k : String) (d : Json) : Except PyErr Json :=
  match j with
  | .obj kvs => .ok ((kvs.lookup k).getD d)
  | _ => .error .attributeError

/-- Python truthiness of a decoded JSON value. -/
def Json.truthy : Json → Bool
  | .null => false
  | .bool b => b
  | .num n => decide (n ≠ 0)
  | .str s => decide (s ≠ "")
  | .arr xs => !xs.isEmpty
  | .obj kvs => !kvs.isEmpty

/-- Python `==` between a JSON value and a string literal: only a string
with the same contents compares equal. -/
def Json.eqStr : Json → String → Bool
  | .str s, t => decide (s = t)
  | _, _ => false

/-- `d.values()` — raises `AttributeError` on a non-dict. -/
def Json.valuesE : Json → Except PyErr (List Json)
  | .obj kvs => .ok (kvs.map Prod.snd)
  | _ => .error .attributeError

/-- Python iteration (`for x in j`): lists yield their elements, strings
yield their one-character substrings, dicts yield their keys; other values
raise `TypeError`. -/
def pyIterE : Json → Except PyErr (List Json)
  | .arr xs => .ok xs
  | .str s => .ok (s.data.map (fun c => Json.str (String.mk [c])))
  | .obj kvs => .ok (kvs.map (fun kv => Json.str kv.1))
  | _ => .error .typeError

/-- The typed events built by `extract_conversation` (the eleven dict
shapes appended in `parser.py`); every constructor stores the raw JSON
values exactly as the Python dict does, with the record timestamp first. -/
inductive Event where
  | user_message : Json → Json → Json → Event
  | agent_commentary : Json → Json → Event
  | reasoning : Json → Json → Event
  | task_complete : Json → Json → Json → Event
  | task_started : Json → Json → Json → Event
  | turn_aborted : Json → Json → Event
  | token_count : Json → Json → Event
  | thread_rolled_back : Json → Json → Event
  | tool_call : Json → Json → Json → Json → Event
  | tool_output : Json → Json → Json → Event
  | assistant_text : Json → Json → Json → Event

/-- Python `v > 0` for a JSON value: numbers compare numerically, booleans
compare as 0/1, anything else raises `TypeError`. -/
def pyGtZero : Json → Except PyErr Bool
  | .num n => .ok (decide (0 < n))
  | .bool b => .ok b
  | _ => .error .typeError

/-- `any(v > 0 for v in vs)` — short-circuits at the first positive value,
so values after it are never compared. -/
def anyPos : List Json → Except PyErr Bool
  | [] => .ok false
  | v :: vs => do
    let b ← pyGtZero v
    if b then .ok true else anyPos vs

/-- Embedding of `parser._handle_event_msg`: the `event_msg` sub-dispatch.
Returns the list of events this record appends (zero or one). -/
def handle_event_msg (payload : Json) (ts : Json) : Except PyErr (List Event) := do
  let msg_type ← payload.objGetD ("type") (.str "")
  if msg_type.eqStr ("user_message") then
    let text ← payload.objGetD ("message") (.str "")
    let images ← payload.objGetD ("local_images") (.arr [])
    pure [.user_message ts text images]
  else if msg_type.eqStr ("agent_message") then
    let text ← payload.objGetD ("message") (.str "")
    pure [.agent_commentary ts text]
  else if msg_type.eqStr ("agent_reasoning") then
    let text ← payload.objGetD ("text") (.str "")
    pure [.reasoning ts text]
  else if msg_type.eqStr ("task_complete") then
    let text ← payload.objGetD ("last_agent_message") (.str "")
    let turn_id ← payload.objGetD ("turn_id") (.str "")
    pure [.task_complete ts text turn_id]
  else if msg_type.eqStr ("task_started") then
    let turn_id ← payload.objGetD ("turn_id") (.str "")
    let mcw ← payload.objGetD ("model_context_window") (.str "")
    pure [.task_started ts turn_id mcw]
  else if msg_type.eqStr ("turn_aborted") then
    let reason ← payload.objGetD ("reason") (.str "")
    pure [.turn_aborted ts reason]
  else if msg_type.eqStr ("token_count") then
    let info0 ← payload.objGetD ("info") .null
    let info := if info0.truthy then info0 else Json.obj []
    let total ← info.objGetD ("total_token_usage") (.obj [])
    if total.truthy then
      let vs ← total.valuesE
      let b ← anyPos vs
      if b then pure [.token_count ts total] else pure []
    else
      pure []
  else if msg_type.eqStr ("thread_rolled_back") then
    let n ← payload.objGetD ("num_turns") (.num 0)
    pure [.thread_rolled_back ts n]
  else
    pure []

/-- The loop body of the assistant-message branch of
`parser._handle_response_item`: one `assistant_text` event per content
block whose `type` is `"output_text"`, in block order. -/
def assistantBlocksLoop (blocks : List Json) (ts phase : Json) :
    Except PyErr (List Event) :=
  match blocks with
  | [] => .ok []
  | b :: rest => do
    let bt ← b.objGetD ("type") .null
    if bt.eqStr ("output_text") then
      let text ← b.objGetD ("text") (.str "")
      let tail ← assistantBlocksLoop rest ts phase
      pure (.assistant_text ts text phase :: tail)
    else
      assistantBlocksLoop rest ts phase

/-- The loop body of the reasoning branch of `parser._handle_response_item`:
one `reasoning` event per summary entry whose `type` is `"summary_text"`. -/
def reasoningSummaryLoop (items : List Json) (ts : Json) :
    Except PyErr (List Event) :=
  match items with
  | [] => .ok []
  | s :: rest => do
    let st ← s.objGetD ("type") .null
    if st.eqStr ("summary_text") then
      let text ← s.objGetD ("text") (.str "")
      let tail ← reasoningSummaryLoop rest ts
      pure (.reasoning ts text :: tail)
    else
      reasoningSummaryLoop rest ts

/-- Embedding of `parser._handle_response_item`: the `response_item`
sub-dispatch (tool calls, tool output, assistant text fan-out, reasoning
summary fan-out). -/
def handle_response_item (payload : Json) (ts : Json) : Except PyErr (List Event) := do
  let item_type ← payload.objGetD ("type") (.str "")
  let role ← payload.objGetD ("role") (.str "")
  if item_type.eqStr ("function_call") then
    let name ← payload.objGetD ("name") (.str "")
    let arguments ← payload.objGetD ("arguments") (.str "")
    let call_id ← payload.objGetD ("call_id") (.str "")
    pure [.tool_call ts name arguments call_id]
  else if item_type.eqStr ("function_call_output") then
    let call_id ← payload.objGetD ("call_id") (.str "")
    let output ← payload.objGetD ("output") (.str "")
    pure [.tool_output ts call_id output]
  else if item_type.eqStr ("message") && role.eqStr ("assistant") then
    let content ← payload.objGetD ("content") (.arr [])
    let phase ← payload.objGetD ("phase") (.str "")
    let blocks ← pyIterE content
    assistantBlocksLoop blocks ts phase
  else if item_type.eqStr ("reasoning") then
    let summary ← payload.objGetD ("summary") (.arr [])
    let items ← pyIterE summary
    reasoningSummaryLoop items ts
  else
    pure []

/-- The loop of `parser.extract_conversation`: `meta` is the
single-assignment session-metadata slot (last `session_meta` wins) and
`events` the accumulated event list. -/
def extractLoop : List Json → Option Json → List Event →
    Except PyErr (Option Json × List Event)
  | [], meta, events => .ok (meta, events)
  | entry :: rest, meta, events => do
    let ts ← entry.objGetD ("timestamp") (.str "")
    let etype ← entry.objGetD ("type") (.str "")
    let payload ← entry.objGetD ("payload") (.obj [])
    if etype.eqStr ("session_meta") then
      extractLoop rest (some payload) events
    else if etype.eqStr ("event_msg") then
      let evs ← handle_event_msg payload ts
      extractLoop rest meta (events ++ evs)
    else if etype.eqStr ("response_item") then
      let evs ← handle_response_item payload ts
      extractLoop rest meta (events ++ evs)
    else
      extractLoop rest meta events

/-- Embedding of `parser.extract_conversation`. -/
def extract_conversation (entries : List Json) :
    Except PyErr (Option Json × List Event) :=
  extractLoop entries none []

/-! ## `formatting.py`: timestamp parsing and formatting

`datetime.fromisoformat` is standard-library code (an external
collaborator); `parseIso` models its accepted grammar for the extended
ISO-8601 format `YYYY-MM-DD[<sep>HH[:MM[:SS[.f]]]][±HH:MM[:SS]]`
(basic formats without separators and week dates are not modelled; no
claim depends on them).  The numeric offset is validated and discarded,
exactly as `strftime` on an aware datetime prints the stored wall-clock
fields without conversion. -/

/-- A parsed timestamp (the fields `strftime` reads). -/
structure PDateTime where
  year : Nat
  month : Nat
  day : Nat
  hour : Nat
  minute : Nat
  second : Nat

/-- Read exactly `k` decimal digits, most significant first. -/
def readDigits : Nat → Nat → List Char → Option (Nat × List Char)
  | 0, acc, cs => some (acc, cs)
  | k + 1, acc, cs =>
    match cs with
    | c :: rest =>
      if c.isDigit then readDigits k (acc * 10 + (c.toNat - 48)) rest else none
    | [] => none

/-- Require the next character to be `c`. -/
def expectChar (c : Char) : List Char → Option (List Char)
  | d :: rest => if d = c then some rest else none
  | [] => none

def isLeapYear (y : Nat) : Bool :=
  y % 4 = 0 && (y % 100 ≠ 0 || y % 400 = 0)

def daysInMonth (y m : Nat) : Nat :=
  if m = 2 then (if isLeapYear y then 29 else 28)
  else if m = 4 ∨ m = 6 ∨ m = 9 ∨ m = 11 then 30
  else 31

/-- Skip an optional fractional-seconds part (`.` or `,` then 1–6 digits). -/
def skipFrac (cs : List Char) : Option (List Char) :=
  match cs with
  | c :: rest =>
    if c = '.' ∨ c = ',' then
      let p := rest.span Char.isDigit
      if 1 ≤ p.1.length ∧ p.1.length ≤ 6 then some p.2 else none
    else some cs
  | [] => some cs

/-- Parse and validate an optional trailing numeric UTC offset
(`±HH:MM[:SS[.f]]`); the offset value is discarded. -/
def parseOffset (cs : List Char) : Option Unit :=
  match cs with
  | [] => some ()
  | c :: rest =>
    if c = '+' ∨ c = '-' then do
      let p1 ← readDigits 2 0 rest
      match p1.2 with
      | ':' :: r2 => do
        let p2 ← readDigits 2 0 r2
        let r4 ← (match p2.2 with
          | ':' :: r3 => do
            let p3 ← readDigits 2 0 r3
            if p3.1 ≤ 59 then skipFrac p3.2 else none
          | r3 => some r3)
        if p1.1 ≤ 23 ∧ p2.1 ≤ 59 ∧ r4 = [] then some () else none
      | _ => none
    else none

/-- Parse the time-of-day part `HH[:MM[:SS[.f]]]` followed by an optional
offset, consuming the rest of the input. -/
def parseTimeAndOffset (cs : List Char) : Option (Nat × Nat × Nat) := do
  let p1 ← readDigits 2 0 cs
  let h := p1.1
  match p1.2 with
  | ':' :: r2 => do
    let p2 ← readDigits 2 0 r2
    let m := p2.1
    match p2.2 with
    | ':' :: r4 => do
      let p3 ← readDigits 2 0 r4
      let s := p3.1
      let r6 ← skipFrac p3.2
      let _ ← parseOffset r6
      if h ≤ 23 ∧ m ≤ 59 ∧ s ≤ 59 then some (h, m, s) else none
    | r3 => do
      let _ ← parseOffset r3
      if h ≤ 23 ∧ m ≤ 59 then some (h, m, 0) else none
  | r1 => do
    let _ ← parseOffset r1
    if h ≤ 23 then some (h, 0, 0) else none

/-- Model of `datetime.fromisoformat` on the extended ISO-8601 grammar:
`none` is a raised `ValueError`. -/
def parseIso (s : String) : Option PDateTime := do
  let (y, r1) ← readDigits 4 0 s.data
  let r2 ← expectChar '-' r1
  let (mo, r3) ← readDigits 2 0 r2
  let r4 ← expectChar '-' r3
  let (d, r5) ← readDigits 2 0 r4
  if 1 ≤ mo ∧ mo ≤ 12 ∧ 1 ≤ d ∧ d ≤ daysInMonth y mo then
    match r5 with
    | [] => some ⟨y, mo, d, 0, 0, 0⟩
    | sep :: r6 =>
      if sep = 'T' ∨ sep = 't' ∨ sep = ' ' then do
        let (h, m, sec) ← parseTimeAndOffset r6
        some ⟨y, mo, d, h, m, sec⟩
      else none
  else none

/-- Zero-padded two-digit field (`%H`, `%M`, `%S`, `%m`, `%d`). -/
def pad2 (n : Nat) : String :=
  if n < 10 then "0" ++ toString n else toString n

/-- Zero-padded four-digit year (`%Y`). -/
def pad4 (n : Nat) : String :=
  if n < 10 then "000" ++ toString n
  else if n < 100 then "00" ++ toString n
  else if n < 1000 then "0" ++ toString n
  else toString n

/-- `ts_str.replace("Z", "+00:00")` — every occurrence of the character
`Z` is replaced (Python `str.replace` replaces all occurrences). -/
def replaceZ (s : String) : String :=
  String.mk (s.data.foldr
    (fun c acc =>
      if c = 'Z' then '+' :: '0' :: '0' :: ':' :: '0' :: '0' :: acc
      else c :: acc)
    [])

/-- Embedding of `formatting.format_ts`: `HH:MM:SS`, falling back to the
first 19 raw characters on parse failure (empty string for empty input). -/
def format_ts (ts_str : String) : String :=
  match parseIso (replaceZ ts_str) with
  | some dt => pad2 dt.hour ++ ":" ++ pad2 dt.minute ++ ":" ++ pad2 dt.second
  | none => if ts_str = "" then "" else String.mk (ts_str.data.take 19)

/-- Embedding of `formatting.format_ts_full`: `YYYY-MM-DD HH:MM:SS UTC`,
falling back to `ts_str or ""` (the whole raw string) on parse failure. -/
def format_ts_full (ts_str : String) : String :=
  match parseIso (replaceZ ts_str) with
  | some dt =>
    pad4 dt.year ++ "-" ++ pad2 dt.month ++ "-" ++ pad2 dt.day ++ " " ++
      pad2 dt.hour ++ ":" ++ pad2 dt.minute ++ ":" ++ pad2 dt.second ++ " UTC"
  | none => if ts_str = "" then "" else ts_str

/-! ## `markdown.py`: HTML escaping and the inline markdown transform

`html.escape` (standard library) is modelled as the character map it
amounts to: the five sequential `str.replace` calls it performs introduce
no character that a later one rewrites, so the composition is a per-
character substitution.  Each `re.sub` pass of `render_markdown` is
modelled as a left-to-right scanner with the same match/advance behaviour
as the regex engine (advance one character on a failed match attempt;
lazy groups take the shortest match; lookarounds inspect the original
neighbouring characters). -/

/-- A single-quoted string as Python `repr` prints it (`repr`'s escaping
of special characters inside the string is not modelled — no claim
depends on it). -/
def pySQuote (s : String) : String :=
  String.mk (Char.ofNat 39 :: s.data ++ [Char.ofNat 39])

mutual

/-- Python `repr()` of a decoded JSON value. -/
def pyRepr : Json → String
  | .null => "None"
  | .bool true => "True"
  | .bool false => "False"
  | .num n => toString n
  | .str s => pySQuote s
  | .arr xs => "[" ++ pyReprList xs ++ "]"
  | .obj kvs => "\x7b" ++ pyReprKVs kvs ++ "\x7d"

/-- Comma-separated `repr`s of list elements. -/
def pyReprList : List Json → String
  | [] => ""
  | [x] => pyRepr x
  | x :: y :: rest => pyRepr x ++ ", " ++ pyReprList (y :: rest)

/-- Comma-separated `key: value` `repr`s of dict items. -/
def pyReprKVs : List (String × Json) → String
  | [] => ""
  | [(k, v)] => pySQuote k ++ ": " ++ pyRepr v
  | (k, v) :: y :: rest =>
    pySQuote k ++ ": " ++ pyRepr v ++ ", " ++ pyReprKVs (y :: rest)

end

def pyStr : Json → String
  | .str s => s
  | j => pyRepr j

/-- The character substitution performed by `html.escape` (quote=True). -/
def escapeChar (c : Char) : List Char :=
  if c = '&' then "&amp;".data
  else if c = '<' then "&lt;".data
  else if c = '>' then "&gt;".data
  else if c = '"' then "&quot;".data
  else if c = Char.ofNat 39 then "&#x27;".data
  else [c]

/-- `html.escape` on a string. -/
def htmlEscape (s : String) : String :=
  String.mk ((s.data.map escapeChar).flatten)

/-- Embedding of `markdown.escape`: `html.escape(str(text)) if text
else ""` — a falsy value (None, empty string, zero, …) yields the empty
string. -/
def escape (j : Json) : String :=
  if j.truthy then htmlEscape (pyStr j) else ""

/-- `\w` of the fenced-code-block pattern (ASCII range; the transcripts
under study are ASCII-identified languages). -/
def isWordChar (c : Char) : Bool :=
  c.isAlphanum || c = '_'

/-- Find the closing ` ``` ` of a fenced code block: the lazy group
`(.*?)` takes everything up to the first closing fence. -/
def splitAtFence (fuel : Nat) (acc : List Char) (cs : List Char) :
    Option (List Char × List Char) :=
  match fuel with
  | 0 => none
  | fuel + 1 =>
    match cs with
    | '`' :: '`' :: '`' :: rest => some (acc.reverse, rest)
    | c :: rest => splitAtFence fuel (c :: acc) rest
    | [] => none

/-- Pass 1 of `render_markdown`: fenced code blocks
(`re.sub(r"```(\w*)\n(.*?)```", ..., flags=re.DOTALL)`). -/
def mdCodePass (fuel : Nat) (cs : List Char) : List Char :=
  match fuel with
  | 0 => cs
  | fuel + 1 =>
    match cs with
    | '`' :: '`' :: '`' :: rest =>
      let p := rest.span isWordChar
      match p.2 with
      | '\n' :: body =>
        match splitAtFence (body.length + 1) [] body with
        | some (code, after) =>
          "<pre><code class=\"language-".data ++ p.1 ++ "\">".data ++
            code ++ "</code></pre>".data ++ mdCodePass fuel after
        | none => '`' :: mdCodePass fuel ('`' :: '`' :: rest)
      | _ => '`' :: mdCodePass fuel ('`' :: '`' :: rest)
    | c :: rest => c :: mdCodePass fuel rest
    | [] => []

/-- Pass 2: inline code spans (`` re.sub(r"`([^`]+)`", ...) ``). -/
def mdInlinePass (fuel : Nat) (cs : List Char) : List Char :=
  match fuel with
  | 0 => cs
  | fuel + 1 =>
    match cs with
    | '`' :: rest =>
      let p := rest.span (fun c => c ≠ '`')
      match p.2 with
      | '`' :: after =>
        if p.1.isEmpty then '`' :: mdInlinePass fuel rest
        else "<code>".data ++ p.1 ++ "</code>".data ++ mdInlinePass fuel after
      | _ => '`' :: mdInlinePass fuel rest
    | c :: rest => c :: mdInlinePass fuel rest
    | [] => []

/-- Close of a bold span: the lazy group `(.+?)` (no DOTALL: `.` cannot
cross a newline) grows until the first `**`; the content is non-empty. -/
def findBoldClose (fuel : Nat) (acc : List Char) (cs : List Char) :
    Option (List Char × List Char) :=
  match fuel with
  | 0 => none
  | fuel + 1 =>
    match cs with
    | '*' :: '*' :: rest =>
      if acc.isEmpty then findBoldClose fuel ['*'] ('*' :: rest)
      else some (acc.reverse, rest)
    | c :: rest =>
      if c = '\n' then none else findBoldClose fuel (c :: acc) rest
    | [] => none

/-- Pass 3: bold (`re.sub(r"\*\*(.+?)\*\*", ...)`). -/
def mdBoldPass (fuel : Nat) (cs : List Char) : List Char :=
  match fuel with
  | 0 => cs
  | fuel + 1 =>
    match cs with
    | '*' :: '*' :: rest =>
      match findBoldClose (rest.length + 1) [] rest with
      | some (content, after) =>
        "<strong>".data ++ content ++ "</strong>".data ++ mdBoldPass fuel after
      | none => '*' :: mdBoldPass fuel ('*' :: rest)
    | c :: rest => c :: mdBoldPass fuel rest
    | [] => []

/-- Close of an italic span: a `*` whose original neighbours are not `*`
(the `(?<!\*)`/`(?!\*)` lookarounds), after a non-empty lazy body. -/
def findItalClose (fuel : Nat) (acc : List Char) (cs : List Char) :
    Option (List Char × List Char) :=
  match fuel with
  | 0 => none
  | fuel + 1 =>
    match cs with
    | [] => none
    | c :: rest =>
      if c = '*' ∧ ¬acc.isEmpty ∧ acc.head? ≠ some '*' ∧ rest.head? ≠ some '*' then
        some (acc.reverse, rest)
      else if c = '\n' then none
      else findItalClose fuel (c :: acc) rest

/-- Pass 4: italic
(`re.sub(r"(?<!\*)\*(?!\*)(.+?)(?<!\*)\*(?!\*)", ...)`); `prev` is the
character of the original string just before the scan position. -/
def mdItalPass (fuel : Nat) (prev : Option Char) (cs : List Char) : List Char :=
  match fuel with
  | 0 => cs
  | fuel + 1 =>
    match cs with
    | [] => []
    | c :: rest =>
      if c = '*' ∧ prev ≠ some '*' ∧ rest.head? ≠ some '*' then
        match findItalClose (rest.length + 1) [] rest with
        | some (content, after) =>
          "<em>".data ++ content ++ "</em>".data ++ mdItalPass fuel (some '*') after
        | none => c :: mdItalPass fuel (some c) rest
      else c :: mdItalPass fuel (some c) rest

/-- Split into lines at `\n` (the lines seen by a MULTILINE `^...$`). -/
def splitLines (cs : List Char) : List (List Char) :=
  match cs with
  | [] => [[]]
  | '\n' :: rest => [] :: splitLines rest
  | c :: rest =>
    match splitLines rest with
    | l :: ls => (c :: l) :: ls
    | [] => [[c]]

/-- One header pass on one line: `^<marker> (.+)$` requires a non-empty
rest of line. -/
def headerLine (marker : List Char) (openT closeT : List Char)
    (line : List Char) : List Char :=
  if marker.isPrefixOf line ∧ ¬(line.drop marker.length).isEmpty then
    openT ++ line.drop marker.length ++ closeT
  else line

/-- The list-item pass on one line: `^- (.+)$` → a bullet-prefixed line. -/
def bulletLine (line : List Char) : List Char :=
  if ("- ".data).isPrefixOf line ∧ ¬(line.drop 2).isEmpty then
    "• ".data ++ line.drop 2
  else line

/-- Embedding of `markdown.render_markdown`: escape, then the eight
`re.sub` passes in source order (code blocks, inline code, bold, italic,
h3, h2, h1, list items). -/
def render_markdown (j : Json) : String :=
  let e := (escape j).data
  let c1 := mdCodePass (e.length + 1) e
  let c2 := mdInlinePass (c1.length + 1) c1
  let c3 := mdBoldPass (c2.length + 1) c2
  let c4 := mdItalPass (c3.length + 1) none c3
  let ls := splitLines c4
  let ls := ls.map (headerLine ("### ".data) ("<h3>".data) ("</h3>".data))
  let ls := ls.map (headerLine ("## ".data) ("<h2>".data) ("</h2>".data))
  let ls := ls.map (headerLine ("# ".data) ("<h1>".data) ("</h1>".data))
  let ls := ls.map bulletLine
  String.mk (List.intercalate ['\n'] ls)

/-! ## The `json` collaborator: `json.loads` and `json.dumps`

Standard-library collaborators modelled on the JSON grammar restricted to
integer numbers (fractional and exponent forms are rejected by the model;
no claim depends on them) and without surrogate-pair `\u` escapes. -/

/-- JSON whitespace. -/
def isJsonWs (c : Char) : Bool :=
  c = ' ' ∨ c = '\t' ∨ c = '\n' ∨ c = '\r'

def skipWs (cs : List Char) : List Char :=
  cs.dropWhile isJsonWs

/-- One hex digit. -/
def hexVal (c : Char) : Option Nat :=
  if c.isDigit then some (c.toNat - 48)
  else if 'a' ≤ c ∧ c ≤ 'f' then some (c.toNat - 87)
  else if 'A' ≤ c ∧ c ≤ 'F' then some (c.toNat - 55)
  else none

/-- The body of a JSON string literal (after the opening quote). -/
def parseJsonStrBody (fuel : Nat) (acc : List Char) (cs : List Char) :
    Option (String × List Char) :=
  match fuel with
  | 0 => none
  | fuel + 1 =>
    match cs with
    | [] => none
    | '"' :: rest => some (String.mk acc.reverse, rest)
    | '\\' :: e :: rest =>
      if e = '"' then parseJsonStrBody fuel ('"' :: acc) rest
      else if e = '\\' then parseJsonStrBody fuel ('\\' :: acc) rest
      else if e = '/' then parseJsonStrBody fuel ('/' :: acc) rest
      else if e = 'n' then parseJsonStrBody fuel ('\n' :: acc) rest
      else if e = 't' then parseJsonStrBody fuel ('\t' :: acc) rest
      else if e = 'r' then parseJsonStrBody fuel ('\r' :: acc) rest
      else if e = 'b' then parseJsonStrBody fuel (Char.ofNat 8 :: acc) rest
      else if e = 'f' then parseJsonStrBody fuel (Char.ofNat 12 :: acc) rest
      else if e = 'u' then
        match rest with
        | h1 :: h2 :: h3 :: h4 :: rest2 => do
          let v1 ← hexVal h1
          let v2 ← hexVal h2
          let v3 ← hexVal h3
          let v4 ← hexVal h4
          parseJsonStrBody fuel
            (Char.ofNat (((v1 * 16 + v2) * 16 + v3) * 16 + v4) :: acc) rest2
        | _ => none
      else none
    | c :: rest =>
      if c.toNat < 32 then none else parseJsonStrBody fuel (c :: acc) rest

/-- A JSON integer literal: optional minus, no superfluous leading zero,
not followed by a fraction or exponent (which the model rejects). -/
def parseJsonInt (cs : List Char) : Option (Int × List Char) :=
  let core : List Char → Option (Nat × List Char) := fun ds =>
    let p := ds.span Char.isDigit
    match p.1 with
    | [] => none
    | ['0'] => some (0, p.2)
    | d :: _ =>
      if d = '0' then none
      else some (p.1.foldl (fun a c => a * 10 + (c.toNat - 48)) 0, p.2)
  let checkTail : List Char → Bool := fun rest =>
    match rest with
    | c :: _ => ¬(c = '.' ∨ c = 'e' ∨ c = 'E')
    | [] => true
  match cs with
  | '-' :: rest => do
    let (n, r) ← core rest
    if checkTail r then some (-(n : Int), r) else none
  | _ => do
    let (n, r) ← core cs
    if checkTail r then some ((n : Int), r) else none

mutual

/-- A JSON value (model of the `json.loads` grammar). -/
def parseJsonVal (fuel : Nat) (cs : List Char) : Option (Json × List Char) :=
  match fuel with
  | 0 => none
  | fuel + 1 =>
    match skipWs cs with
    | 'n' :: 'u' :: 'l' :: 'l' :: rest => some (.null, rest)
    | 't' :: 'r' :: 'u' :: 'e' :: rest => some (.bool true, rest)
    | 'f' :: 'a' :: 'l' :: 's' :: 'e' :: rest => some (.bool false, rest)
    | '"' :: rest => do
      let (s, r) ← parseJsonStrBody (rest.length + 1) [] rest
      some (.str s, r)
    | '[' :: rest =>
      (match skipWs rest with
       | ']' :: r => some (.arr [], r)
       | _ => do
         let (xs, r) ← parseJsonArrItems fuel rest
         some (.arr xs, r))
    | c :: rest =>
      if c = Char.ofNat 123 then
        (match skipWs rest with
         | r0 =>
           if r0.head? = some (Char.ofNat 125) then some (.obj [], r0.tail)
           else do
             let (kvs, r) ← parseJsonObjItems fuel rest
             some (.obj kvs, r))
      else do
        let (n, r) ← parseJsonInt (c :: rest)
        some (.num n, r)
    | [] => none

/-- Comma-separated array items up to the closing bracket. -/
def parseJsonArrItems (fuel : Nat) (cs : List Char) :
    Option (List Json × List Char) :=
  match fuel with
  | 0 => none
  | fuel + 1 => do
    let (x, r1) ← parseJsonVal fuel cs
    match skipWs r1 with
    | ',' :: r2 => do
      let (xs, r3) ← parseJsonArrItems fuel r2
      some (x :: xs, r3)
    | ']' :: r2 => some ([x], r2)
    | _ => none

/-- Comma-separated object items up to the closing brace. -/
def parseJsonObjItems (fuel : Nat) (cs : List Char) :
    Option (List (String × Json) × List Char) :=
  match fuel with
  | 0 => none
  | fuel + 1 =>
    match skipWs cs with
    | '"' :: r0 => do
      let (k, r1) ← parseJsonStrBody (r0.length + 1) [] r0
      match skipWs r1 with
      | ':' :: r2 => do
        let (v, r3) ← parseJsonVal fuel r2
        match skipWs r3 with
        | ',' :: r4 => do
          let (kvs, r5) ← parseJsonObjItems fuel r4
          some ((k, v) :: kvs, r5)
        | r4 =>
          if r4.head? = some (Char.ofNat 125) then some ([(k, v)], r4.tail)
          else none
      | _ => none
    | _ => none

end

/-- Model of `json.loads`: parse one value and require only whitespace
after it; `none` is a raised `json.JSONDecodeError`. -/
def json_loads (s : String) : Option Json :=
  match parseJsonVal (2 * s.length + 8) s.data with
  | some (j, rest) => if (skipWs rest).isEmpty then some j else none
  | none => none

/-- A JSON string literal as `json.dumps` writes it (`ensure_ascii`
escaping of non-ASCII code points is modelled for the basic plane). -/
def jsonQuoteChar (c : Char) : List Char :=
  if c = '"' then ['\\', '"']
  else if c = '\\' then ['\\', '\\']
  else if c = '\n' then ['\\', 'n']
  else if c = '\t' then ['\\', 't']
  else if c = '\r' then ['\\', 'r']
  else if c.toNat = 8 then ['\\', 'b']
  else if c.toNat = 12 then ['\\', 'f']
  else if c.toNat < 32 ∨ c.toNat > 126 then
    let hex : Nat → Char := fun n =>
      if n < 10 then Char.ofNat (48 + n) else Char.ofNat (87 + (n - 10))
    ['\\', 'u', hex (c.toNat / 4096 % 16), hex (c.toNat / 256 % 16),
      hex (c.toNat / 16 % 16), hex (c.toNat % 16)]
  else [c]

def jsonQuote (s : String) : String :=
  String.mk ('"' :: (s.data.map jsonQuoteChar).flatten ++ ['"'])

mutual

/-- `json.dumps(j, indent=None)` — compact separators `", "` / `": "`. -/
def dumpsC : Json → String
  | .null => "null"
  | .bool true => "true"
  | .bool false => "false"
  | .num n => toString n
  | .str s => jsonQuote s
  | .arr xs => "[" ++ dumpsCList xs ++ "]"
  | .obj kvs => "\x7b" ++ dumpsCKVs kvs ++ "\x7d"

def dumpsCList : List Json → String
  | [] => ""
  | [x] => dumpsC x
  | x :: y :: rest => dumpsC x ++ ", " ++ dumpsCList (y :: rest)

def dumpsCKVs : List (String × Json) → String
  | [] => ""
  | [(k, v)] => jsonQuote k ++ ": " ++ dumpsC v
  | (k, v) :: y :: rest =>
    jsonQuote k ++ ": " ++ dumpsC v ++ ", " ++ dumpsCKVs (y :: rest)

end

/-- `lvl` spaces. -/
def indentSp (lvl : Nat) : String :=
  String.mk (List.replicate lvl ' ')

mutual

/-- `json.dumps(j, indent=2)` at nesting level `lvl`: items one per line,
indented two further spaces; empty containers stay on one line. -/
def dumps2 : Json → Nat → String
  | .null, _ => "null"
  | .bool true, _ => "true"
  | .bool false, _ => "false"
  | .num n, _ => toString n
  | .str s, _ => jsonQuote s
  | .arr [], _ => "[]"
  | .arr (x :: xs), lvl =>
    "[\n" ++ dumps2List (x :: xs) (lvl + 2) ++ "\n" ++ indentSp lvl ++ "]"
  | .obj [], _ => "\x7b\x7d"
  | .obj (kv :: kvs), lvl =>
    "\x7b\n" ++ dumps2KVs (kv :: kvs) (lvl + 2) ++ "\n" ++ indentSp lvl ++ "\x7d"

def dumps2List : List Json → Nat → String
  | [], _ => ""
  | [x], lvl => indentSp lvl ++ dumps2 x lvl
  | x :: y :: rest, lvl =>
    indentSp lvl ++ dumps2 x lvl ++ ",\n" ++ dumps2List (y :: rest) lvl

def dumps2KVs : List (String × Json) → Nat → String
  | [], _ => ""
  | [(k, v)], lvl => indentSp lvl ++ jsonQuote k ++ ": " ++ dumps2 v lvl
  | (k, v) :: y :: rest, lvl =>
    indentSp lvl ++ jsonQuote k ++ ": " ++ dumps2 v lvl ++ ",\n" ++
      dumps2KVs (y :: rest) lvl

end

/-- Insert thousands separators into a reversed digit list
(`f"{n:,}"`). -/
def commaAux : Nat → List Char → List Char
  | _, [] => []
  | i, c :: rest =>
    if (i + 1) % 3 = 0 ∧ ¬rest.isEmpty then c :: ',' :: commaAux (i + 1) rest
    else c :: commaAux (i + 1) rest

/-- `f"{n:,}"` for an integer. -/
def fmtComma (n : Int) : String :=
  (if n < 0 then "-" else "") ++
    String.mk (commaAux 0 (toString n.natAbs).data.reverse).reverse

/-- `f"{v:,}"` for a JSON value: integers format numerically, booleans
format as integers 1/0, anything else raises (a `ValueError`, modelled
as `TypeError` — both abort rendering; no claim distinguishes them). -/
def pyFmtComma : Json → Except PyErr String
  | .num n => .ok (fmtComma n)
  | .bool true => .ok ("1")
  | .bool false => .ok ("0")
  | _ => .error .typeError

/-! ## `html_builder.py`: per-event renderers, registry and the build loop

Each Python renderer mutates the `sidebar_items` / `message_blocks`
lists; a handler is modelled as returning the lists of items it appends
(at most one each).  Operations on event fields keep their Python
behaviour: string-only chains (slice-then-replace) demand a string,
slicing works on strings and lists, `len` on sized values, and
`escape`/`str` are total.  A `try/except (JSONDecodeError, TypeError)`
block is `catchTE`: it routes those two errors to the fallback and lets
others (notably `AttributeError`) propagate. -/

/-- A chain of `str`-only methods applied to an event field (`[:n]`
followed by `.replace`): any non-string raises.  (For a list value
Python would raise at the `.replace` step rather than the slice; the
model collapses the chain to one error — the error kind is the only
difference, and no claim depends on it.) -/
def asStr : Json → Except PyErr String
  | .str s => .ok s
  | _ => .error .typeError

/-- Python slicing `x[:n]`: strings and lists slice, others raise. -/
def pySlice (j : Json) (n : Nat) : Except PyErr Json :=
  match j with
  | .str s => .ok (.str (String.mk (s.data.take n)))
  | .arr xs => .ok (.arr (xs.take n))
  | _ => .error .typeError

/-- Python `len()`: strings (code points), lists and dicts are sized. -/
def pyLen : Json → Except PyErr Nat
  | .str s => .ok s.data.length
  | .arr xs => .ok xs.length
  | .obj kvs => .ok kvs.length
  | _ => .error .typeError

/-- Python `v <= 0`: numbers numerically, booleans as 0/1. -/
def pyLeZero : Json → Except PyErr Bool
  | .num n => .ok (decide (n ≤ 0))
  | .bool b => .ok !b
  | _ => .error .typeError

/-- `.replace("\n", " ")` on a string. -/
def strReplaceNL (s : String) : String :=
  String.mk (s.data.map (fun c => if c = '\n' then ' ' else c))

/-- `try: ... except (json.JSONDecodeError, TypeError): fallback` —
`TypeError` (which also stands for the decode error in the model) is
caught; any other exception propagates. -/
def catchTE {α : Type} (x : Except PyErr α) (fallback : Except PyErr α) :
    Except PyErr α :=
  match x with
  | .ok a => .ok a
  | .error .typeError => fallback
  | .error e => .error e

/-- A renderer: event, formatted timestamp, anchor ↦ appended
(sidebar items, message blocks). -/
abbrev Handler := Event → String → String → Except PyErr (List String × List String)

/-- Embedding of `html_builder._render_user_message`. -/
def _render_user_message : Handler := fun evt ts anchor =>
  match evt with
  | .user_message _ text _ => do
    let textS ← asStr text
    let text_preview := strReplaceNL (String.mk (textS.data.take 80))
    let sb := "<a class=\"tree-node tree-role-user\" href=\"#" ++ anchor ++ "\">" ++
      "<span class=\"tree-ts\">" ++ ts ++ "</span> " ++
      "<span class=\"tree-content\">👤 " ++ escape (.str text_preview) ++ "</span></a>"
    let ms := "<div class=\"user-message\" id=\"" ++ anchor ++ "\">" ++
      "<div class=\"message-timestamp\">" ++ ts ++ "</div>" ++
      "<div class=\"markdown-content\">" ++ render_markdown text ++ "</div>" ++
      "</div>"
    pure ([sb], [ms])
  | _ => .error .typeError

/-- Embedding of `html_builder._render_reasoning`. -/
def _render_reasoning : Handler := fun evt ts anchor =>
  match evt with
  | .reasoning _ text => do
    let sl ← pySlice text 60
    let sb := "<a class=\"tree-node tree-role-thinking\" href=\"#" ++ anchor ++ "\">" ++
      "<span class=\"tree-ts\">" ++ ts ++ "</span> " ++
      "<span class=\"tree-content\">💭 " ++ escape sl ++ "</span></a>"
    let ms := "<div class=\"thinking-block\" id=\"" ++ anchor ++ "\">" ++
      "<div class=\"message-timestamp\">" ++ ts ++ "</div>" ++
      "<div class=\"thinking-text\">" ++ escape text ++ "</div>" ++
      "</div>"
    pure ([sb], [ms])
  | _ => .error .typeError

/-- Embedding of `html_builder._render_agent_commentary`. -/
def _render_agent_commentary : Handler := fun evt ts anchor =>
  match evt with
  | .agent_commentary _ text => do
    let sl ← pySlice text 60
    let sb := "<a class=\"tree-node tree-role-assistant\" href=\"#" ++ anchor ++ "\">" ++
      "<span class=\"tree-ts\">" ++ ts ++ "</span> " ++
      "<span class=\"tree-content\">💬 " ++ escape sl ++ "</span></a>"
    let ms := "<div class=\"commentary-message\" id=\"" ++ anchor ++ "\">" ++
      "<div class=\"message-timestamp\">" ++ ts ++ "</div>" ++
      "<div class=\"markdown-content\">" ++ render_markdown text ++ "</div>" ++
      "</div>"
    pure ([sb], [ms])
  | _ => .error .typeError

/-- Embedding of `html_builder._render_assistant_text`. -/
def _render_assistant_text : Handler := fun evt ts anchor =>
  match evt with
  | .assistant_text _ text phase => do
    let phase_label := if phase.truthy then " (" ++ pyStr phase ++ ")" else ""
    let textS ← asStr text
    let preview := strReplaceNL (String.mk (textS.data.take 60))
    let sb := "<a class=\"tree-node tree-role-assistant\" href=\"#" ++ anchor ++ "\">" ++
      "<span class=\"tree-ts\">" ++ ts ++ "</span> " ++
      "<span class=\"tree-content\">🤖 " ++ escape (.str preview) ++ "</span></a>"
    let ms := "<div class=\"assistant-message\" id=\"" ++ anchor ++ "\">" ++
      "<div class=\"message-timestamp\">" ++ ts ++ escape (.str phase_label) ++ "</div>" ++
      "<div class=\"assistant-text markdown-content\">" ++ render_markdown text ++ "</div>" ++
      "</div>"
    pure ([sb], [ms])
  | _ => .error .typeError

/-- Embedding of `html_builder._render_tool_call` (the try-blocks for the
preview and the detail each parse the raw `arguments` string again, as
the source does). -/
def _render_tool_call : Handler := fun evt ts anchor =>
  match evt with
  | .tool_call _ name arguments _ => do
    let args_preview ← catchTE
      (match arguments with
       | .str s =>
         match json_loads s with
         | some argsJ =>
           if name.eqStr ("exec_command") then do
             let cmd ← argsJ.objGetD ("cmd") (.str "")
             pySlice cmd 80
           else
             .ok (.str (String.mk ((dumpsC argsJ).data.take 80)))
         | none => .error .typeError
       | _ => .error .typeError)
      (pySlice arguments 80)
    let sb := "<a class=\"tree-node tree-role-tool\" href=\"#" ++ anchor ++ "\">" ++
      "<span class=\"tree-ts\">" ++ ts ++ "</span> " ++
      "<span class=\"tree-content\">⚡ " ++ escape name ++ ": " ++
        escape args_preview ++ "</span></a>"
    let args_display ← catchTE
      (match arguments with
       | .str s =>
         match json_loads s with
         | some argsJ =>
           if name.eqStr ("exec_command") then do
             let cmd ← argsJ.objGetD ("cmd") (.str "")
             .ok ("<span class=\"tool-command\">$ " ++ escape cmd ++ "</span>")
           else
             .ok ("<pre>" ++ escape (.str (dumps2 argsJ 0)) ++ "</pre>")
         | none => .error .typeError
       | _ => .error .typeError)
      (.ok ("<pre>" ++ escape arguments ++ "</pre>"))
    let ms := "<div class=\"tool-execution pending\" id=\"" ++ anchor ++ "\">" ++
      "<div class=\"message-timestamp\">" ++ ts ++ "</div>" ++
      "<div class=\"tool-header\"><span class=\"tool-name\">" ++ escape name ++ "</span></div>" ++
      "<div class=\"tool-args\">" ++ args_display ++ "</div>" ++
      "</div>"
    pure ([sb], [ms])
  | _ => .error .typeError

/-- Embedding of `html_builder._render_tool_output`. -/
def _render_tool_output : Handler := fun evt ts anchor =>
  match evt with
  | .tool_output _ _ output => do
    let len ← pyLen output
    let truncated := decide (2000 < len)
    let preview ← pySlice output 2000
    let sb := "<a class=\"tree-node tree-role-tool\" href=\"#" ++ anchor ++ "\">" ++
      "<span class=\"tree-ts\">" ++ ts ++ "</span> " ++
      "<span class=\"tree-content\">📤 output (" ++ toString len ++ " chars)</span></a>"
    let expandable_class := if truncated then " expandable" else ""
    let expand_hint :=
      if truncated then
        "\n<span class=\"expand-hint\">[click to expand " ++ toString len ++
          " chars]</span>"
      else ""
    let ms := "<div class=\"tool-execution success\" id=\"" ++ anchor ++ "\">" ++
      "<div class=\"tool-output" ++ expandable_class ++
        "\" onclick=\"this.classList.toggle(\x27expanded\x27)\">" ++
      "<div class=\"output-preview\"><pre>" ++ escape preview ++ expand_hint ++ "</pre></div>" ++
      "<div class=\"output-full\"><pre>" ++ escape output ++ "</pre></div>" ++
      "</div></div>"
    pure ([sb], [ms])
  | _ => .error .typeError

/-- Embedding of `html_builder._render_task_complete`. -/
def _render_task_complete : Handler := fun evt ts anchor =>
  match evt with
  | .task_complete _ text _ => do
    let textS ← asStr text
    let preview := strReplaceNL (String.mk (textS.data.take 60))
    let sb := "<a class=\"tree-node tree-role-assistant\" href=\"#" ++ anchor ++ "\">" ++
      "<span class=\"tree-ts\">" ++ ts ++ "</span> " ++
      "<span class=\"tree-content\">✅ " ++ escape (.str preview) ++ "</span></a>"
    let ms := "<div class=\"assistant-message final-answer\" id=\"" ++ anchor ++ "\">" ++
      "<div class=\"message-timestamp\">" ++ ts ++ " — final answer</div>" ++
      "<div class=\"assistant-text markdown-content\">" ++ render_markdown text ++ "</div>" ++
      "</div>"
    pure ([sb], [ms])
  | _ => .error .typeError

/-- Embedding of `html_builder._render_task_started`. -/
def _render_task_started : Handler := fun evt ts anchor =>
  match evt with
  | .task_started _ _ _ =>
    let sb := "<a class=\"tree-node tree-role-system\" href=\"#" ++ anchor ++ "\">" ++
      "<span class=\"tree-ts\">" ++ ts ++ "</span> " ++
      "<span class=\"tree-content\">▶ Turn started</span></a>"
    let ms := "<div class=\"system-event\" id=\"" ++ anchor ++ "\">" ++
      "<div class=\"message-timestamp\">" ++ ts ++ "</div>" ++
      "<span class=\"event-label\">▶ Turn started</span>" ++
      "</div>"
    pure ([sb], [ms])
  | _ => .error .typeError

/-- Embedding of `html_builder._render_turn_aborted`. -/
def _render_turn_aborted : Handler := fun evt ts anchor =>
  match evt with
  | .turn_aborted _ reasonJ =>
    let reason := escape reasonJ
    let sb := "<a class=\"tree-node tree-role-error\" href=\"#" ++ anchor ++ "\">" ++
      "<span class=\"tree-ts\">" ++ ts ++ "</span> " ++
      "<span class=\"tree-content\">⛔ Turn aborted: " ++ reason ++ "</span></a>"
    let ms := "<div class=\"system-event error-event\" id=\"" ++ anchor ++ "\">" ++
      "<div class=\"message-timestamp\">" ++ ts ++ "</div>" ++
      "<span class=\"event-label error-text\">⛔ Turn aborted: " ++ reason ++ "</span>" ++
      "</div>"
    pure ([sb], [ms])
  | _ => .error .typeError

/-- Embedding of `html_builder._render_thread_rolled_back` (`n` is
interpolated with `str()`, not escaped). -/
def _render_thread_rolled_back : Handler := fun evt ts anchor =>
  match evt with
  | .thread_rolled_back _ n =>
    let sb := "<a class=\"tree-node tree-role-system\" href=\"#" ++ anchor ++ "\">" ++
      "<span class=\"tree-ts\">" ++ ts ++ "</span> " ++
      "<span class=\"tree-content\">↩ Rolled back " ++ pyStr n ++ " turn(s)</span></a>"
    let ms := "<div class=\"system-event\" id=\"" ++ anchor ++ "\">" ++
      "<div class=\"message-timestamp\">" ++ ts ++ "</div>" ++
      "<span class=\"event-label\">↩ Rolled back " ++ pyStr n ++ " turn(s)</span>" ++
      "</div>"
    pure ([sb], [ms])
  | _ => .error .typeError

/-- Embedding of `html_builder._render_token_count`: appends nothing when
`total.get("input_tokens", 0) <= 0`. -/
def _render_token_count : Handler := fun evt ts anchor =>
  match evt with
  | .token_count _ total => do
    let v ← total.objGetD ("input_tokens") (.num 0)
    let le ← pyLeZero v
    if le then pure ([], [])
    else do
      let iv ← total.objGetD ("input_tokens") (.num 0)
      let fi ← pyFmtComma iv
      let ov ← total.objGetD ("output_tokens") (.num 0)
      let fo ← pyFmtComma ov
      let rv ← total.objGetD ("reasoning_output_tokens") (.num 0)
      let fr ← pyFmtComma rv
      let tok_str := "in:" ++ fi ++ " out:" ++ fo ++ " reasoning:" ++ fr
      let sb := "<a class=\"tree-node tree-role-system\" href=\"#" ++ anchor ++ "\">" ++
        "<span class=\"tree-ts\">" ++ ts ++ "</span> " ++
        "<span class=\"tree-content\">📊 " ++ tok_str ++ "</span></a>"
      let ms := "<div class=\"token-count\" id=\"" ++ anchor ++ "\">" ++
        "<div class=\"message-timestamp\">" ++ ts ++ "</div>" ++
        "<span class=\"event-label\">📊 Tokens — " ++ tok_str ++ "</span>" ++
        "</div>"
      pure ([sb], [ms])
  | _ => .error .typeError

/-- The `"type"` tag an event dict carries (the string `parser.py` stores
under the `"type"` key). -/
def Event.typeTag : Event → String
  | .user_message .. => "user_message"
  | .agent_commentary .. => "agent_commentary"
  | .reasoning .. => "reasoning"
  | .task_complete .. => "task_complete"
  | .task_started .. => "task_started"
  | .turn_aborted .. => "turn_aborted"
  | .token_count .. => "token_count"
  | .thread_rolled_back .. => "thread_rolled_back"
  | .tool_call .. => "tool_call"
  | .tool_output .. => "tool_output"
  | .assistant_text .. => "assistant_text"

/-- The `"ts"` value an event dict carries. -/
def Event.tsJ : Event → Json
  | .user_message ts .. => ts
  | .agent_commentary ts .. => ts
  | .reasoning ts .. => ts
  | .task_complete ts .. => ts
  | .task_started ts .. => ts
  | .turn_aborted ts .. => ts
  | .token_count ts .. => ts
  | .thread_rolled_back ts .. => ts
  | .tool_call ts .. => ts
  | .tool_output ts .. => ts
  | .assistant_text ts .. => ts

/-- Embedding of `html_builder._EVENT_HANDLERS` (registry in source
order). -/
def _EVENT_HANDLERS : List (String × Handler) :=
  [(("user_message"), _render_user_message),
   (("reasoning"), _render_reasoning),
   (("agent_commentary"), _render_agent_commentary),
   (("assistant_text"), _render_assistant_text),
   (("tool_call"), _render_tool_call),
   (("tool_output"), _render_tool_output),
   (("task_complete"), _render_task_complete),
   (("task_started"), _render_task_started),
   (("turn_aborted"), _render_turn_aborted),
   (("thread_rolled_back"), _render_thread_rolled_back),
   (("token_count"), _render_token_count)]

/-- `format_ts(evt["ts"])` — `.replace` on a non-string timestamp raises
`AttributeError` (not caught anywhere in `build_html`). -/
def formatTsPy (j : Json) : Except PyErr String :=
  match j with
  | .str s => .ok (format_ts s)
  | _ => .error .attributeError

/-- The event loop of `html_builder.build_html`, started at `msg_idx`:
formats the timestamp, increments the counter, derives the anchor, looks
the handler up (skipping unregistered kinds), and accumulates the
`(msg_idx, anchor)` assignments with the two fragment lists. -/
def build_html_loop : List Event → Nat →
    Except PyErr (List (Nat × String) × List String × List String)
  | [], _ => .ok ([], [], [])
  | evt :: rest, msg_idx => do
    let ts ← formatTsPy evt.tsJ
    let idx := msg_idx + 1
    let anchor := "msg-" ++ toString idx
    let pair ← (match _EVENT_HANDLERS.lookup evt.typeTag with
      | some h => h evt ts anchor
      | none => .ok ([], []))
    let tail ← build_html_loop rest idx
    .ok ((idx, anchor) :: tail.1, pair.1 ++ tail.2.1, pair.2 ++ tail.2.2)

/-! ## Specification-side helpers

Pure characterisations used in theorem statements: a total (never-raising)
field accessor, the "last `session_meta` payload wins" function, the
well-formedness predicate under which extraction provably never raises,
and small string observations (`<`-count, substring). -/

/-- Whether a JSON value is an object. -/
def Json.isObj : Json → Bool
  | .obj _ => true
  | _ => false

/-- Total field access with default (the specification-side counterpart
of `Json.objGetD`, defined only on the object case it is applied to). -/
def Json.getdP (j : Json) (k : String) (d : Json) : Json :=
  match j with
  | .obj kvs => (kvs.lookup k).getD d
  | _ => d

/-- The (defaulted) payload of a record iff the record is an object whose
(defaulted) `type` is `"session_meta"`. -/
def metaPayloadOf? (e : Json) : Option Json :=
  match e with
  | .obj kvs =>
    if (((kvs.lookup ("type")).getD (.str "")).eqStr ("session_meta")) then
      some ((kvs.lookup ("payload")).getD (.obj []))
    else none
  | _ => none

/-- Whether a record is treated as a `session_meta` record. -/
def isSessionMetaRec (e : Json) : Bool :=
  (metaPayloadOf? e).isSome

/-- Last-one-wins session metadata: the payload of the last
`session_meta` record (single-assignment overwrite), if any. -/
def lastSessionMetaPayload (entries : List Json) : Option Json :=
  entries.foldl
    (fun acc e =>
      match metaPayloadOf? e with
      | some p => some p
      | none => acc)
    none

/-- A value every branch of the extractor can compare with `> 0`. -/
def wfNumB : Json → Bool
  | .num _ => true
  | .bool _ => true
  | _ => false

/-- A content/summary field the fan-out loops can consume: a list of
objects. -/
def wfBlocks : Json → Bool
  | .arr xs => xs.all Json.isObj
  | _ => false

/-- An `info` field the token-count branch can consume without raising:
falsy, or an object whose (defaulted) `total_token_usage` is falsy or an
object of comparable values. -/
def wfTokenInfo (info0 : Json) : Bool :=
  if info0.truthy then
    match info0 with
    | .obj kvs =>
      let total := (kvs.lookup ("total_token_usage")).getD (.obj [])
      if total.truthy then
        match total with
        | .obj t => (t.map Prod.snd).all wfNumB
        | _ => false
      else true
    | _ => false
  else true

/-- A payload none of the extractor branches raise on. -/
def wfPayload (p : Json) : Bool :=
  match p with
  | .obj kvs =>
    wfBlocks ((kvs.lookup ("content")).getD (.arr [])) &&
    wfBlocks ((kvs.lookup ("summary")).getD (.arr [])) &&
    wfTokenInfo ((kvs.lookup ("info")).getD .null)
  | _ => false

/-- A record extraction provably never raises on: an object whose
(defaulted) payload is well-formed. -/
def wfRecord (e : Json) : Bool :=
  match e with
  | .obj kvs => wfPayload ((kvs.lookup ("payload")).getD (.obj []))
  | _ => false

/-- Number of markup-significant `<` characters in a string. -/
def countLt (s : String) : Nat :=
  s.data.count '<'

/-- Substring test (used to exhibit injected markup). -/
def hasSub (hay pat : List Char) : Bool :=
  match hay with
  | [] => pat.isEmpty
  | _ :: rest => pat.isPrefixOf hay || hasSub rest pat

/-! ## Shared lemmas -/

theorem pybind_ok {α β : Type} (a : α) (f : α → Except PyErr β) :
    (Except.ok a >>= f : Except PyErr β) = f a := rfl

theorem pybind_err {α β : Type} (e : PyErr) (f : α → Except PyErr β) :
    ((Except.error e : Except PyErr α) >>= f) = .error e := rfl

/-- On an object, the raising accessor agrees with the total one. -/
theorem objGetD_of_isObj (j : Json) (k : String) (d : Json) (h : j.isObj = true) :
    j.objGetD k d = .ok (j.getdP k d) := by
  cases j <;> simp_all [Json.isObj, Json.objGetD, Json.getdP]

/-! ## C10 — the renderer registry covers every extractable event kind -/

/-- C10: every event `extract_conversation` can emit carries a `"type"`
tag that is a key of `_EVENT_HANDLERS`, so the "no renderer registered,
skip" branch of `build_html` is never taken on extractor output. -/
theorem c10_registry_covers_extractor_events :
    ∀ e : Event, (_EVENT_HANDLERS.lookup e.typeTag).isSome = true := by
  intro e
  cases e <;> rfl

/-! ## C4 — timestamp formatting fallbacks -/

/-- C4 counterexample: the claim says both formatters fall back to the
first 19 raw characters, but on an unparseable 32-character input
`format_ts_full` returns the whole raw string, which differs from its
first 19 characters. -/
theorem c4_counterexample :
    format_ts_full ("this string is not a timestamp!!") =
      "this string is not a timestamp!!" ∧
    "this string is not a timestamp!!" ≠
      String.mk (("this string is not a timestamp!!").data.take 19) := by
  exact ⟨rfl, by decide⟩

/-- C4 amended: neither formatter ever throws; a trailing literal `Z` is
tolerated in place of a numeric UTC offset; on parse failure `format_ts`
returns the first 19 raw characters of the input (empty string for empty
input), while `format_ts_full` returns the entire raw input unchanged. -/
theorem c4_amended :
    (∀ s : String, parseIso (replaceZ s) = none →
      format_ts s = (if s = "" then "" else String.mk (s.data.take 19)) ∧
      format_ts_full s = (if s = "" then "" else s)) ∧
    format_ts ("2024-01-01T12:34:56Z") = "12:34:56" ∧
    format_ts_full ("2024-01-01T00:00:00Z") = "2024-01-01 00:00:00 UTC" := by
  refine ⟨?_, rfl, rfl⟩
  intro s h
  constructor
  · unfold format_ts
    rw [h]
  · unfold format_ts_full
    rw [h]

/-- C4 witness: the amended fallback evaluated at a concrete unparseable
input. -/
theorem c4_amended_witness :
    parseIso (replaceZ ("absolutely not a timestamp value")) = none ∧
    format_ts ("absolutely not a timestamp value") =
      String.mk (("absolutely not a timestamp value").data.take 19) ∧
    format_ts_full ("absolutely not a timestamp value") =
      "absolutely not a timestamp value" := by
  have h := c4_amended.1 ("absolutely not a timestamp value") rfl
  refine ⟨rfl, ?_, ?_⟩
  · rw [h.1]; rfl
  · rw [h.2]; rfl

/-! ## C3 — which token-count events reach the output -/

/-- C3 counterexample: the extractor emits a TokenCount event for a
totals map whose `input_tokens` is missing (hence not `> 0`) as long as
some other counter is positive — refuting "emitted by the extractor only
if `input_tokens > 0`". -/
theorem c3_counterexample :
    handle_event_msg
      (.obj [("type", .str "token_count"),
             ("info", .obj [("total_token_usage",
                             .obj [("output_tokens", .num 5)])])])
      (.str "t") =
      .ok [.token_count (.str "t") (.obj [("output_tokens", .num 5)])] ∧
    (Json.obj [("output_tokens", Json.num 5)]).getdP ("input_tokens") (.num 0) =
      .num 0 := by
  exact ⟨rfl, rfl⟩

/-- C3 amended: the suppression lives in the renderer, not the extractor:
`_render_token_count` produces fragments only if the totals map's
`input_tokens` value compares strictly greater than 0 (missing values
default to 0 and are suppressed); the extractor itself may emit
TokenCount events with zero or missing `input_tokens`. -/
theorem c3_amended (ts total : Json) (tsS anchor : String)
    (sb ms : List String)
    (hr : _render_token_count (.token_count ts total) tsS anchor = .ok (sb, ms))
    (hne : sb ≠ [] ∨ ms ≠ []) :
    ∃ v, total.objGetD ("input_tokens") (.num 0) = .ok v ∧
      pyLeZero v = .ok false := by
  simp only [_render_token_count] at hr
  cases hv : total.objGetD ("input_tokens") (.num 0) with
  | error e => rw [hv] at hr; simp [pybind_err] at hr
  | ok v =>
    rw [hv] at hr
    rw [pybind_ok] at hr
    cases hl : pyLeZero v with
    | error e => rw [hl] at hr; simp [pybind_err] at hr
    | ok le =>
      rw [hl] at hr
      rw [pybind_ok] at hr
      cases le with
      | true =>
        simp only [if_true] at hr
        have : sb = [] ∧ ms = [] := by
          cases hr
          exact ⟨rfl, rfl⟩
        rcases hne with h1 | h1 <;> exact absurd this.1 (by simp_all)
      | false =>
        exact ⟨v, rfl, hl⟩

/-- C3 witness: the amended suppression condition applied at a concrete
rendered TokenCount event with `input_tokens: 5`. -/
theorem c3_amended_witness :
    ∃ v, (Json.obj [("input_tokens", Json.num 5)]).objGetD
        ("input_tokens") (.num 0) = .ok v ∧ pyLeZero v = .ok false := by
  exact c3_amended (.str "") (.obj [("input_tokens", .num 5)]) ("") ("msg-1")
    (["<a class=\"tree-node tree-role-system\" href=\"#msg-1\"><span class=\"tree-ts\"></span> <span class=\"tree-content\">📊 in:5 out:0 reasoning:0</span></a>"])
    (["<div class=\"token-count\" id=\"msg-1\"><div class=\"message-timestamp\"></div><span class=\"event-label\">📊 Tokens — in:5 out:0 reasoning:0</span></div>"])
    rfl (by simp)

theorem pypure_ok {α : Type} (a : α) : (pure a : Except PyErr α) = .ok a := rfl

/-! ## C2 — the token-count emission filter -/

/-- C2: a `token_count` event_msg record emits a TokenCount event iff the
totals map is non-empty and some value compares strictly positive; an
empty or all-zero map emits nothing, and `input_tokens: 5` emits exactly
one event preserving the map (see the witness for the concrete cases). -/
theorem c2_token_count_filter
    (p ts info0 : Json) (tkvs : List (String × Json)) (b : Bool)
    (hobj : p.isObj = true)
    (hty : p.getdP ("type") (.str "") = .str "token_count")
    (hinfo : p.getdP ("info") .null = info0)
    (hinfoObj : info0.truthy = true → info0.isObj = true)
    (htot : (if info0.truthy then info0 else Json.obj []).getdP
        ("total_token_usage") (.obj []) = .obj tkvs)
    (hany : anyPos (tkvs.map Prod.snd) = .ok b) :
    handle_event_msg p ts =
      .ok (if tkvs.isEmpty then []
        else if b then [.token_count ts (.obj tkvs)] else []) := by
  unfold handle_event_msg
  rw [objGetD_of_isObj p ("type") (.str "") hobj, hty, pybind_ok]
  simp only [Json.eqStr, decide_False, decide_True, if_false, if_true]
  rw [objGetD_of_isObj p ("info") .null hobj, hinfo, pybind_ok]
  by_cases hit : info0.truthy = true
  · rw [if_pos hit] at htot ⊢
    rw [objGetD_of_isObj info0 ("total_token_usage") (.obj []) (hinfoObj hit),
      htot, pybind_ok]
    by_cases hemp : tkvs.isEmpty = true
    · have ht : (Json.obj tkvs).truthy = false := by
        simp [Json.truthy, hemp]
      rw [ht]
      simp [hemp, pypure_ok]
    · have ht : (Json.obj tkvs).truthy = true := by
        simp [Json.truthy] at hemp ⊢
        simp [hemp]
      rw [ht]
      simp only [if_true, Json.valuesE, pybind_ok]
      rw [hany, pybind_ok]
      cases b <;> simp [hemp, pypure_ok]
  · rw [if_neg hit] at htot ⊢
    have h0 : (Json.obj []).getdP ("total_token_usage") (.obj []) = Json.obj [] := rfl
    rw [h0] at htot
    injection htot with htkvs
    rw [objGetD_of_isObj (Json.obj []) ("total_token_usage") (.obj []) rfl, h0,
      pybind_ok]
    simp [Json.truthy, ← htkvs, pypure_ok]

/-- C2 witness: the three concrete cases of the claim — `input_tokens: 5`
emits exactly one TokenCount event preserving the value; an empty map and
an all-zero map emit nothing. -/
theorem c2_witness :
    handle_event_msg
      (.obj [("type", .str "token_count"),
             ("info", .obj [("total_token_usage",
                             .obj [("input_tokens", .num 5)])])]) (.str "t") =
      .ok [.token_count (.str "t") (.obj [("input_tokens", .num 5)])] ∧
    handle_event_msg
      (.obj [("type", .str "token_count"),
             ("info", .obj [("total_token_usage", .obj [])])]) (.str "t") =
      .ok [] ∧
    handle_event_msg
      (.obj [("type", .str "token_count"),
             ("info", .obj [("total_token_usage",
                             .obj [("input_tokens", .num 0),
                                   ("output_tokens", .num 0)])])]) (.str "t") =
      .ok [] := by
  refine ⟨?_, ?_, ?_⟩
  · have h := c2_token_count_filter
      (.obj [("type", .str "token_count"),
             ("info", .obj [("total_token_usage",
                             .obj [("input_tokens", .num 5)])])])
      (.str "t") (.obj [("total_token_usage", .obj [("input_tokens", .num 5)])])
      ([("input_tokens", .num 5)]) true rfl rfl rfl (fun _ => rfl) rfl rfl
    simpa using h
  · have h := c2_token_count_filter
      (.obj [("type", .str "token_count"),
             ("info", .obj [("total_token_usage", .obj [])])])
      (.str "t") (.obj [("total_token_usage", .obj [])]) ([]) false
      rfl rfl rfl (fun _ => rfl) rfl rfl
    simpa using h
  · have h := c2_token_count_filter
      (.obj [("type", .str "token_count"),
             ("info", .obj [("total_token_usage",
                             .obj [("input_tokens", .num 0),
                                   ("output_tokens", .num 0)])])]) (.str "t")
      (.obj [("total_token_usage",
              .obj [("input_tokens", .num 0), ("output_tokens", .num 0)])])
      ([("input_tokens", .num 0), ("output_tokens", .num 0)]) false
      rfl rfl rfl (fun _ => rfl) rfl rfl
    simpa using h

/-! ## C7 — assistant message fan-out -/

/-- The assistant-content loop on a list of object blocks filters the
`output_text` blocks in order. -/
theorem assistantBlocksLoop_objs (blocks : List Json) (ts phase : Json)
    (h : ∀ b ∈ blocks, b.isObj = true) :
    assistantBlocksLoop blocks ts phase =
      .ok (blocks.filterMap (fun b =>
        if (b.getdP ("type") .null).eqStr ("output_text") = true then
          some (.assistant_text ts (b.getdP ("text") (.str "")) phase)
        else none)) := by
  induction blocks with
  | nil => rfl
  | cons b rest ih =>
    have hb := h b (List.mem_cons_self ..)
    have hrest := fun x hx => h x (List.mem_cons_of_mem _ hx)
    unfold assistantBlocksLoop
    rw [objGetD_of_isObj b ("type") .null hb, pybind_ok]
    by_cases hcond : (b.getdP ("type") .null).eqStr ("output_text") = true
    · rw [if_pos hcond, objGetD_of_isObj b ("text") (.str "") hb, pybind_ok,
        ih hrest, pybind_ok]
      simp [hcond, pypure_ok]
    · rw [if_neg hcond, ih hrest]
      simp [hcond]

/-- C7: an assistant `response_item`/`message` record emits one
AssistantText event per `output_text` content block, in block order, each
carrying that block's text, the message's `phase`, and the record's
timestamp; blocks of other types contribute nothing. -/
theorem c7_assistant_fanout
    (p ts phase : Json) (blocks : List Json)
    (hobj : p.isObj = true)
    (hty : p.getdP ("type") (.str "") = .str "message")
    (hrole : p.getdP ("role") (.str "") = .str "assistant")
    (hcontent : p.getdP ("content") (.arr []) = .arr blocks)
    (hphase : p.getdP ("phase") (.str "") = phase)
    (hblocks : ∀ b ∈ blocks, b.isObj = true) :
    handle_response_item p ts =
      .ok (blocks.filterMap (fun b =>
        if (b.getdP ("type") .null).eqStr ("output_text") = true then
          some (.assistant_text ts (b.getdP ("text") (.str "")) phase)
        else none)) := by
  unfold handle_response_item
  rw [objGetD_of_isObj p ("type") (.str "") hobj, hty, pybind_ok,
    objGetD_of_isObj p ("role") (.str "") hobj, hrole, pybind_ok]
  simp only [Json.eqStr, decide_False, decide_True, if_false, if_true,
    Bool.and_self, Bool.and_true, Bool.true_and, Bool.and_false, Bool.false_and]
  rw [objGetD_of_isObj p ("content") (.arr []) hobj, hcontent, pybind_ok,
    objGetD_of_isObj p ("phase") (.str "") hobj, hphase, pybind_ok]
  simp only [pyIterE, pybind_ok]
  exact assistantBlocksLoop_objs blocks ts phase hblocks

/-- C7 witness: a record with two `output_text` blocks yields exactly two
AssistantText events in block order with the record's timestamp; a record
with no such block yields no event. -/
theorem c7_witness :
    handle_response_item
      (.obj [("type", .str "message"), ("role", .str "assistant"),
             ("content", .arr [.obj [("type", .str "output_text"), ("text", .str "one")],
                               .obj [("type", .str "output_text"), ("text", .str "two")]]),
             ("phase", .str "final")]) (.str "2024-01-01T00:00:05Z") =
      .ok [.assistant_text (.str "2024-01-01T00:00:05Z") (.str "one") (.str "final"),
           .assistant_text (.str "2024-01-01T00:00:05Z") (.str "two") (.str "final")] ∧
    handle_response_item
      (.obj [("type", .str "message"), ("role", .str "assistant"),
             ("content", .arr [.obj [("type", .str "other")]])]) (.str "t") =
      .ok [] := by
  constructor
  · have h := c7_assistant_fanout
      (.obj [("type", .str "message"), ("role", .str "assistant"),
             ("content", .arr [.obj [("type", .str "output_text"), ("text", .str "one")],
                               .obj [("type", .str "output_text"), ("text", .str "two")]]),
             ("phase", .str "final")]) (.str "2024-01-01T00:00:05Z") (.str "final")
      ([.obj [("type", .str "output_text"), ("text", .str "one")],
        .obj [("type", .str "output_text"), ("text", .str "two")]])
      rfl rfl rfl rfl rfl
      (by intro b hb
          simp only [List.mem_cons, List.not_mem_nil, or_false] at hb
          rcases hb with rfl | rfl <;> rfl)
    simpa using h
  · have h := c7_assistant_fanout
      (.obj [("type", .str "message"), ("role", .str "assistant"),
             ("content", .arr [.obj [("type", .str "other")]])]) (.str "t")
      (.str "") ([.obj [("type", .str "other")]])
      rfl rfl rfl rfl rfl
      (by intro b hb
          simp only [List.mem_cons, List.not_mem_nil, or_false] at hb
          rcases hb with rfl
          rfl)
    simpa using h

/-! ## C5 — session metadata: last one wins, no event emitted -/

/-- The extraction loop: the metadata slot is a last-one-wins fold over
the `session_meta` records, and dropping those records leaves the
emitted event sequence unchanged (they contribute no event). -/
theorem extractLoop_meta (entries : List Json) :
    ∀ (m0 : Option Json) (acc : List Event) (m : Option Json) (evs : List Event),
      extractLoop entries m0 acc = .ok (m, evs) →
      m = entries.foldl (fun a e => match metaPayloadOf? e with
            | some p => some p
            | none => a) m0 ∧
      extractLoop (entries.filter (fun e => !isSessionMetaRec e)) none acc =
        .ok (none, evs) := by
  induction entries with
  | nil =>
    intro m0 acc m evs h
    unfold extractLoop at h
    injection h with h'
    injection h' with h1 h2
    subst h1; subst h2
    exact ⟨rfl, rfl⟩
  | cons entry rest ih =>
    intro m0 acc m evs h
    cases entry with
    | obj kvs =>
      unfold extractLoop at h
      rw [objGetD_of_isObj (.obj kvs) ("timestamp") (.str "") rfl, pybind_ok,
        objGetD_of_isObj (.obj kvs) ("type") (.str "") rfl, pybind_ok,
        objGetD_of_isObj (.obj kvs) ("payload") (.obj []) rfl, pybind_ok] at h
      by_cases hsm : ((Json.obj kvs).getdP ("type") (.str "")).eqStr ("session_meta") = true
      · rw [if_pos hsm] at h
        have hmp : metaPayloadOf? (.obj kvs) =
            some ((Json.obj kvs).getdP ("payload") (.obj [])) := by
          simp only [metaPayloadOf?, Json.getdP] at hsm ⊢
          rw [if_pos hsm]
        have hf : isSessionMetaRec (.obj kvs) = true := by
          simp [isSessionMetaRec, hmp]
        have := ih (some ((Json.obj kvs).getdP ("payload") (.obj []))) acc m evs h
        refine ⟨?_, ?_⟩
        · rw [List.foldl_cons, hmp]
          exact this.1
        · simp only [List.filter_cons, hf, Bool.not_true, if_false]
          exact this.2
      · have hmp : metaPayloadOf? (.obj kvs) = none := by
          simp only [metaPayloadOf?, Json.getdP] at hsm ⊢
          rw [if_neg hsm]
        have hf : isSessionMetaRec (.obj kvs) = false := by
          simp [isSessionMetaRec, hmp]
        rw [if_neg hsm] at h
        by_cases hem : ((Json.obj kvs).getdP ("type") (.str "")).eqStr ("event_msg") = true
        · rw [if_pos hem] at h
          cases hh : handle_event_msg ((Json.obj kvs).getdP ("payload") (.obj []))
              ((Json.obj kvs).getdP ("timestamp") (.str "")) with
          | error e => rw [hh, pybind_err] at h; exact absurd h (by simp)
          | ok evs' =>
            rw [hh, pybind_ok] at h
            have := ih m0 (acc ++ evs') m evs h
            refine ⟨?_, ?_⟩
            · rw [List.foldl_cons, hmp]
              exact this.1
            · simp only [List.filter_cons, hf, Bool.not_false, if_true]
              unfold extractLoop
              rw [objGetD_of_isObj (.obj kvs) ("timestamp") (.str "") rfl, pybind_ok,
                objGetD_of_isObj (.obj kvs) ("type") (.str "") rfl, pybind_ok,
                objGetD_of_isObj (.obj kvs) ("payload") (.obj []) rfl, pybind_ok,
                if_neg hsm, if_pos hem, hh, pybind_ok]
              exact this.2
        · rw [if_neg hem] at h
          by_cases hri : ((Json.obj kvs).getdP ("type") (.str "")).eqStr ("response_item") = true
          · rw [if_pos hri] at h
            cases hh : handle_response_item ((Json.obj kvs).getdP ("payload") (.obj []))
                ((Json.obj kvs).getdP ("timestamp") (.str "")) with
            | error e => rw [hh, pybind_err] at h; exact absurd h (by simp)
            | ok evs' =>
              rw [hh, pybind_ok] at h
              have := ih m0 (acc ++ evs') m evs h
              refine ⟨?_, ?_⟩
              · rw [List.foldl_cons, hmp]
                exact this.1
              · simp only [List.filter_cons, hf, Bool.not_false, if_true]
                unfold extractLoop
                rw [objGetD_of_isObj (.obj kvs) ("timestamp") (.str "") rfl, pybind_ok,
                  objGetD_of_isObj (.obj kvs) ("type") (.str "") rfl, pybind_ok,
                  objGetD_of_isObj (.obj kvs) ("payload") (.obj []) rfl, pybind_ok,
                  if_neg hsm, if_neg hem, if_pos hri, hh, pybind_ok]
                exact this.2
          · rw [if_neg hri] at h
            have := ih m0 acc m evs h
            refine ⟨?_, ?_⟩
            · rw [List.foldl_cons, hmp]
              exact this.1
            · simp only [List.filter_cons, hf, Bool.not_false, if_true]
              unfold extractLoop
              rw [objGetD_of_isObj (.obj kvs) ("timestamp") (.str "") rfl, pybind_ok,
                objGetD_of_isObj (.obj kvs) ("type") (.str "") rfl, pybind_ok,
                objGetD_of_isObj (.obj kvs) ("payload") (.obj []) rfl, pybind_ok,
                if_neg hsm, if_neg hem, if_neg hri]
              exact this.2
    | null =>
      unfold extractLoop at h
      simp [Json.objGetD, pybind_err] at h
    | bool b =>
      unfold extractLoop at h
      simp [Json.objGetD, pybind_err] at h
    | num n =>
      unfold extractLoop at h
      simp [Json.objGetD, pybind_err] at h
    | str s =>
      unfold extractLoop at h
      simp [Json.objGetD, pybind_err] at h
    | arr xs =>
      unfold extractLoop at h
      simp [Json.objGetD, pybind_err] at h

/-- C5: extraction emits no event for `session_meta` records (filtering
them out leaves the event list unchanged), and the metadata result is the
defaulted payload of the last such record, or `none` if there is none. -/
theorem c5_session_meta (entries : List Json) (m : Option Json) (evs : List Event)
    (h : extract_conversation entries = .ok (m, evs)) :
    m = lastSessionMetaPayload entries ∧
    extract_conversation (entries.filter (fun e => !isSessionMetaRec e)) =
      .ok (none, evs) :=
  extractLoop_meta entries none [] m evs h

/-- C5 witness: two `session_meta` records around a user message — the
later metadata payload wins, and filtering the `session_meta` records out
leaves the single extracted event unchanged. -/
theorem c5_session_meta_witness :
    some (Json.obj [("id", Json.str "b")]) =
      lastSessionMetaPayload
        ([.obj [("type", .str "session_meta"), ("payload", .obj [("id", .str "a")])],
          .obj [("type", .str "event_msg"), ("timestamp", .str "t2"),
                ("payload", .obj [("type", .str "user_message"), ("message", .str "hi")])],
          .obj [("type", .str "session_meta"), ("payload", .obj [("id", .str "b")])]]) ∧
    extract_conversation
      (([.obj [("type", .str "session_meta"), ("payload", .obj [("id", .str "a")])],
         .obj [("type", .str "event_msg"), ("timestamp", .str "t2"),
               ("payload", .obj [("type", .str "user_message"), ("message", .str "hi")])],
         .obj [("type", .str "session_meta"), ("payload", .obj [("id", .str "b")])]] :
        List Json).filter (fun e => !isSessionMetaRec e)) =
      .ok (none, [.user_message (.str "t2") (.str "hi") (.arr [])]) :=
  c5_session_meta
    ([.obj [("type", .str "session_meta"), ("payload", .obj [("id", .str "a")])],
      .obj [("type", .str "event_msg"), ("timestamp", .str "t2"),
            ("payload", .obj [("type", .str "user_message"), ("message", .str "hi")])],
      .obj [("type", .str "session_meta"), ("payload", .obj [("id", .str "b")])]])
    (some (Json.obj [("id", Json.str "b")]))
    ([.user_message (.str "t2") (.str "hi") (.arr [])]) rfl

/-! ## C6 — anchor assignment in the build loop -/

/-- The build loop assigns positions `idx+1, idx+2, …` in order, one
per event whether or not a renderer was found, with anchor `"msg-<n>"`. -/
theorem build_html_loop_anchors (events : List Event) :
    ∀ (idx : Nat) (a : List (Nat × String)) (sb ms : List String),
      build_html_loop events idx = .ok (a, sb, ms) →
      a.map Prod.fst = List.range' (idx + 1) events.length ∧
      ∀ p ∈ a, p.2 = "msg-" ++ toString p.1 := by
  induction events with
  | nil =>
    intro idx a sb ms h
    unfold build_html_loop at h
    injection h with h'
    injection h' with h1 h2
    subst h1
    simp
  | cons evt rest ih =>
    intro idx a sb ms h
    unfold build_html_loop at h
    cases hts : formatTsPy evt.tsJ with
    | error e => rw [hts, pybind_err] at h; exact absurd h (by simp)
    | ok ts =>
      rw [hts, pybind_ok] at h
      cases hl : _EVENT_HANDLERS.lookup evt.typeTag with
      | none =>
        rw [hl] at h
        simp only [] at h
        rw [pybind_ok] at h
        cases htail : build_html_loop rest (idx + 1) with
        | error e => rw [htail, pybind_err] at h; exact absurd h (by simp)
        | ok tail =>
          rw [htail, pybind_ok] at h
          injection h with h'
          have ha : a = (idx + 1, "msg-" ++ toString (idx + 1)) :: tail.1 := by
            exact congrArg Prod.fst h'.symm
          have iht := ih (idx + 1) tail.1 tail.2.1 tail.2.2 (by
            rw [htail])
          subst ha
          refine ⟨?_, ?_⟩
          · simp only [List.map_cons, List.length_cons, List.range'_succ, iht.1]
          · intro p hp
            rcases List.mem_cons.1 hp with rfl | hp'
            · rfl
            · exact iht.2 p hp'
      | some hdl =>
        rw [hl] at h
        simp only [] at h
        cases hh : hdl evt ts ("msg-" ++ toString (idx + 1)) with
        | error e => rw [hh, pybind_err] at h; exact absurd h (by simp)
        | ok pair =>
          rw [hh, pybind_ok] at h
          cases htail : build_html_loop rest (idx + 1) with
          | error e => rw [htail, pybind_err] at h; exact absurd h (by simp)
          | ok tail =>
            rw [htail, pybind_ok] at h
            injection h with h'
            have ha : a = (idx + 1, "msg-" ++ toString (idx + 1)) :: tail.1 := by
              exact congrArg Prod.fst h'.symm
            have iht := ih (idx + 1) tail.1 tail.2.1 tail.2.2 (by rw [htail])
            subst ha
            refine ⟨?_, ?_⟩
            · simp only [List.map_cons, List.length_cons, List.range'_succ, iht.1]
            · intro p hp
              rcases List.mem_cons.1 hp with rfl | hp'
              · rfl
              · exact iht.2 p hp'

/-- C6: for a non-empty event sequence on which the loop completes, each
event is assigned, in order, the anchor `"msg-<n>"` with `n` its 1-based
position; the positions used are exactly `1..len`, strictly increasing,
with no duplicates. -/
theorem c6_anchor_assignment (events : List Event) (hne : events ≠ [])
    (a : List (Nat × String)) (sb ms : List String)
    (h : build_html_loop events 0 = .ok (a, sb, ms)) :
    a.map Prod.fst = List.range' 1 events.length ∧
    (∀ p ∈ a, p.2 = "msg-" ++ toString p.1) ∧
    List.Chain' (· < ·) (a.map Prod.fst) ∧
    (a.map Prod.fst).Nodup ∧ a ≠ [] := by
  have hc := build_html_loop_anchors events 0 a sb ms h
  refine ⟨hc.1, hc.2, ?_, ?_, ?_⟩
  · rw [hc.1]
    exact (List.pairwise_lt_range' 1 events.length).chain'
  · rw [hc.1]
    exact List.nodup_range' 1 events.length
  · intro habs
    subst habs
    simp at hc
    exact hne hc

/-- C6 witness: the anchor properties evaluated on a concrete one-event
sequence. -/
theorem c6_anchor_assignment_witness :
    ([((1 : Nat), "msg-1")]).map Prod.fst = List.range' 1 1 ∧
    (∀ p ∈ ([((1 : Nat), "msg-1")]), p.2 = "msg-" ++ toString p.1) ∧
    List.Chain' (· < ·) (([((1 : Nat), "msg-1")]).map Prod.fst) ∧
    (([((1 : Nat), "msg-1")]).map Prod.fst).Nodup ∧
    ([((1 : Nat), "msg-1")]) ≠ [] := by
  have h := c6_anchor_assignment
    ([.task_started (.str "") (.str "") (.str "")]) (by simp)
    ([((1 : Nat), "msg-1")])
    (["<a class=\"tree-node tree-role-system\" href=\"#msg-1\"><span class=\"tree-ts\"></span> <span class=\"tree-content\">▶ Turn started</span></a>"])
    (["<div class=\"system-event\" id=\"msg-1\"><div class=\"message-timestamp\"></div><span class=\"event-label\">▶ Turn started</span></div>"])
    rfl
  simpa using h

/-! ## C1 — extraction never raises (amended to well-formed records) -/

/-- The reasoning-summary loop on a list of object entries filters the
`summary_text` entries in order. -/
theorem reasoningSummaryLoop_objs (items : List Json) (ts : Json)
    (h : ∀ s ∈ items, s.isObj = true) :
    reasoningSummaryLoop items ts =
      .ok (items.filterMap (fun s =>
        if (s.getdP ("type") .null).eqStr ("summary_text") = true then
          some (.reasoning ts (s.getdP ("text") (.str "")))
        else none)) := by
  induction items with
  | nil => rfl
  | cons s rest ih =>
    have hs := h s (List.mem_cons_self ..)
    have hrest := fun x hx => h x (List.mem_cons_of_mem _ hx)
    unfold reasoningSummaryLoop
    rw [objGetD_of_isObj s ("type") .null hs, pybind_ok]
    by_cases hcond : (s.getdP ("type") .null).eqStr ("summary_text") = true
    · rw [if_pos hcond, objGetD_of_isObj s ("text") (.str "") hs, pybind_ok,
        ih hrest, pybind_ok]
      simp [hcond, pypure_ok]
    · rw [if_neg hcond, ih hrest]
      simp [hcond]

/-- `any(v > 0 ...)` succeeds on comparable (number/boolean) values. -/
theorem anyPos_wf (vs : List Json) (h : ∀ v ∈ vs, wfNumB v = true) :
    ∃ b, anyPos vs = .ok b := by
  induction vs with
  | nil => exact ⟨false, rfl⟩
  | cons v rest ih =>
    have hv := h v (List.mem_cons_self ..)
    obtain ⟨b, hb⟩ := ih (fun x hx => h x (List.mem_cons_of_mem _ hx))
    unfold anyPos
    cases v with
    | num n =>
      by_cases hn : (0 : Int) < n
      · exact ⟨true, by simp [pyGtZero, pybind_ok, hn]⟩
      · exact ⟨b, by simp [pyGtZero, pybind_ok, hn, hb]⟩
    | bool c =>
      cases c
      · exact ⟨b, by simp [pyGtZero, pybind_ok, hb]⟩
      · exact ⟨true, by simp [pyGtZero, pybind_ok]⟩
    | null => simp [wfNumB] at hv
    | str s => simp [wfNumB] at hv
    | arr xs => simp [wfNumB] at hv
    | obj kvs => simp [wfNumB] at hv

/-- The `event_msg` dispatch never raises on a well-formed payload. -/
theorem handle_event_msg_wf (p ts : Json) (h : wfPayload p = true) :
    ∃ evs, handle_event_msg p ts = .ok evs := by
  cases p with
  | obj kvs =>
    simp only [wfPayload, Bool.and_eq_true] at h
    obtain ⟨⟨_, _⟩, hi⟩ := h
    unfold handle_event_msg
    rw [objGetD_of_isObj (.obj kvs) ("type") (.str "") rfl, pybind_ok]
    split
    · exact ⟨_, rfl⟩
    split
    · exact ⟨_, rfl⟩
    split
    · exact ⟨_, rfl⟩
    split
    · exact ⟨_, rfl⟩
    split
    · exact ⟨_, rfl⟩
    split
    · exact ⟨_, rfl⟩
    split
    · -- token_count branch
      rw [objGetD_of_isObj (.obj kvs) ("info") .null rfl, pybind_ok]
      simp only [Json.getdP] at hi ⊢
      unfold wfTokenInfo at hi
      cases hinfo : (kvs.lookup ("info")).getD .null with
      | obj ikvs =>
        rw [hinfo] at hi
        by_cases hit : (Json.obj ikvs).truthy = true
        · rw [if_pos hit] at hi ⊢
          simp only [] at hi ⊢
          rw [objGetD_of_isObj (.obj ikvs) ("total_token_usage") (.obj []) rfl,
            pybind_ok]
          simp only [Json.getdP] at hi ⊢
          cases htot : (ikvs.lookup ("total_token_usage")).getD (.obj []) with
          | obj t =>
            rw [htot] at hi
            by_cases htt : (Json.obj t).truthy = true
            · rw [if_pos htt] at hi ⊢
              simp only [] at hi
              simp only [Json.valuesE, pybind_ok]
              obtain ⟨b, hb⟩ := anyPos_wf (t.map Prod.snd) (by
                intro v hv
                simp only [List.all_eq_true] at hi
                exact hi v hv)
              rw [hb, pybind_ok]
              cases b
              · exact ⟨_, rfl⟩
              · exact ⟨_, rfl⟩
            · rw [if_neg htt]
              exact ⟨_, rfl⟩
          | null =>
            rw [htot] at hi
            by_cases htt : (Json.null).truthy = true
            · rw [if_pos htt] at hi
              simp at hi
            · rw [if_neg htt]
              exact ⟨_, rfl⟩
          | bool c =>
            rw [htot] at hi
            by_cases htt : (Json.bool c).truthy = true
            · rw [if_pos htt] at hi
              simp at hi
            · rw [if_neg htt]
              exact ⟨_, rfl⟩
          | num n =>
            rw [htot] at hi
            by_cases htt : (Json.num n).truthy = true
            · rw [if_pos htt] at hi
              simp at hi
            · rw [if_neg htt]
              exact ⟨_, rfl⟩
          | str s =>
            rw [htot] at hi
            by_cases htt : (Json.str s).truthy = true
            · rw [if_pos htt] at hi
              simp at hi
            · rw [if_neg htt]
              exact ⟨_, rfl⟩
          | arr xs =>
            rw [htot] at hi
            by_cases htt : (Json.arr xs).truthy = true
            · rw [if_pos htt] at hi
              simp at hi
            · rw [if_neg htt]
              exact ⟨_, rfl⟩
        · rw [if_neg hit]
          exact ⟨_, rfl⟩
      | null =>
        rw [hinfo] at hi
        by_cases hit : (Json.null).truthy = true
        · rw [if_pos hit] at hi
          simp at hi
        · rw [if_neg hit]
          exact ⟨_, rfl⟩
      | bool c =>
        rw [hinfo] at hi
        by_cases hit : (Json.bool c).truthy = true
        · rw [if_pos hit] at hi
          simp at hi
        · rw [if_neg hit]
          exact ⟨_, rfl⟩
      | num n =>
        rw [hinfo] at hi
        by_cases hit : (Json.num n).truthy = true
        · rw [if_pos hit] at hi
          simp at hi
        · rw [if_neg hit]
          exact ⟨_, rfl⟩
      | str s2 =>
        rw [hinfo] at hi
        by_cases hit : (Json.str s2).truthy = true
        · rw [if_pos hit] at hi
          simp at hi
        · rw [if_neg hit]
          exact ⟨_, rfl⟩
      | arr xs =>
        rw [hinfo] at hi
        by_cases hit : (Json.arr xs).truthy = true
        · rw [if_pos hit] at hi
          simp at hi
        · rw [if_neg hit]
          exact ⟨_, rfl⟩
    split
    · exact ⟨_, rfl⟩
    exact ⟨_, rfl⟩
  | null => simp [wfPayload] at h
  | bool b => simp [wfPayload] at h
  | num n => simp [wfPayload] at h
  | str s => simp [wfPayload] at h
  | arr xs => simp [wfPayload] at h

/-- The `response_item` dispatch never raises on a well-formed payload. -/
theorem handle_response_item_wf (p ts : Json) (h : wfPayload p = true) :
    ∃ evs, handle_response_item p ts = .ok evs := by
  cases p with
  | obj kvs =>
    simp only [wfPayload, Bool.and_eq_true] at h
    obtain ⟨⟨hc, hs⟩, _⟩ := h
    unfold handle_response_item
    rw [objGetD_of_isObj (.obj kvs) ("type") (.str "") rfl, pybind_ok,
      objGetD_of_isObj (.obj kvs) ("role") (.str "") rfl, pybind_ok]
    split
    · exact ⟨_, rfl⟩
    split
    · exact ⟨_, rfl⟩
    split
    · rw [objGetD_of_isObj (.obj kvs) ("content") (.arr []) rfl, pybind_ok,
        objGetD_of_isObj (.obj kvs) ("phase") (.str "") rfl, pybind_ok]
      simp only [Json.getdP] at hc ⊢
      unfold wfBlocks at hc
      cases hcon : (kvs.lookup ("content")).getD (.arr []) with
      | arr blocks =>
        rw [hcon] at hc
        simp only [pyIterE, pybind_ok]
        exact ⟨_, assistantBlocksLoop_objs blocks ts _
          (fun b hb => List.all_eq_true.1 hc b hb)⟩
      | null => rw [hcon] at hc; simp at hc
      | bool c => rw [hcon] at hc; simp at hc
      | num n => rw [hcon] at hc; simp at hc
      | str s2 => rw [hcon] at hc; simp at hc
      | obj okvs => rw [hcon] at hc; simp at hc
    split
    · rw [objGetD_of_isObj (.obj kvs) ("summary") (.arr []) rfl, pybind_ok]
      simp only [Json.getdP] at hs ⊢
      unfold wfBlocks at hs
      cases hsum : (kvs.lookup ("summary")).getD (.arr []) with
      | arr items =>
        rw [hsum] at hs
        simp only [pyIterE, pybind_ok]
        exact ⟨_, reasoningSummaryLoop_objs items ts
          (fun b hb => List.all_eq_true.1 hs b hb)⟩
      | null => rw [hsum] at hs; simp at hs
      | bool c => rw [hsum] at hs; simp at hs
      | num n => rw [hsum] at hs; simp at hs
      | str s2 => rw [hsum] at hs; simp at hs
      | obj okvs => rw [hsum] at hs; simp at hs
    exact ⟨_, rfl⟩
  | null => simp [wfPayload] at h
  | bool b => simp [wfPayload] at h
  | num n => simp [wfPayload] at h
  | str s => simp [wfPayload] at h
  | arr xs => simp [wfPayload] at h

/-- The extraction loop never raises when every record is well-formed. -/
theorem extractLoop_wf (entries : List Json) :
    ∀ (m0 : Option Json) (acc : List Event),
      (∀ e ∈ entries, wfRecord e = true) →
      ∃ r, extractLoop entries m0 acc = .ok r := by
  induction entries with
  | nil => intro m0 acc _; exact ⟨_, rfl⟩
  | cons entry rest ih =>
    intro m0 acc h
    have he := h entry (List.mem_cons_self ..)
    have hrest := fun x hx => h x (List.mem_cons_of_mem _ hx)
    cases entry with
    | obj kvs =>
      simp only [wfRecord] at he
      unfold extractLoop
      rw [objGetD_of_isObj (.obj kvs) ("timestamp") (.str "") rfl, pybind_ok,
        objGetD_of_isObj (.obj kvs) ("type") (.str "") rfl, pybind_ok,
        objGetD_of_isObj (.obj kvs) ("payload") (.obj []) rfl, pybind_ok]
      split
      · exact ih _ _ hrest
      split
      · obtain ⟨evs', hh⟩ := handle_event_msg_wf
          ((Json.obj kvs).getdP ("payload") (.obj []))
          ((Json.obj kvs).getdP ("timestamp") (.str "")) he
        rw [hh, pybind_ok]
        exact ih _ _ hrest
      split
      · obtain ⟨evs', hh⟩ := handle_response_item_wf
          ((Json.obj kvs).getdP ("payload") (.obj []))
          ((Json.obj kvs).getdP ("timestamp") (.str "")) he
        rw [hh, pybind_ok]
        exact ih _ _ hrest
      exact ih _ _ hrest
    | null => simp [wfRecord] at he
    | bool b => simp [wfRecord] at he
    | num n => simp [wfRecord] at he
    | str s => simp [wfRecord] at he
    | arr xs => simp [wfRecord] at he

/-- C1 amended: extraction completes without raising for every record
sequence whose records are JSON objects with object payloads, whose
`content`/`summary` fields are lists of objects, and whose token-usage
values are comparable; every field access on a missing key takes the safe
default.  (As stated the claim fails: a record whose payload is not a
JSON object raises, see the counterexample.) -/
theorem c1_amended (entries : List Json) (h : ∀ e ∈ entries, wfRecord e = true) :
    ∃ r, extract_conversation entries = .ok r :=
  extractLoop_wf entries none [] h

/-- C1 counterexample: a single `event_msg` record whose payload is a
string (not a JSON object) makes `extract_conversation` raise an
`AttributeError`, refuting "extraction completes for all inputs,
including payloads that are not JSON objects". -/
theorem c1_counterexample :
    extract_conversation
      [.obj [("type", .str "event_msg"), ("payload", .str "boom")]] =
      .error .attributeError := rfl

/-- C1 witness: extraction succeeds on a concrete well-formed log with a
session_meta, a token_count and an assistant message record. -/
theorem c1_amended_witness :
    ∃ r, extract_conversation
      ([.obj [("type", .str "session_meta"), ("payload", .obj [("id", .str "a")])],
        .obj [("type", .str "event_msg"), ("timestamp", .str "t"),
              ("payload", .obj [("type", .str "token_count"),
                                ("info", .obj [("total_token_usage",
                                                .obj [("input_tokens", .num 5)])])])],
        .obj [("type", .str "response_item"), ("timestamp", .str "t2"),
              ("payload", .obj [("type", .str "message"), ("role", .str "assistant"),
                                ("content", .arr [.obj [("type", .str "output_text"),
                                                        ("text", .str "hi")]])])]]) =
      .ok r :=
  c1_amended _ (by
    intro e he
    simp only [List.mem_cons, List.not_mem_nil, or_false] at he
    rcases he with rfl | rfl | rfl <;> rfl)

/-! ## C8 — three-way tool-call argument fallback -/

/-- C8: rendering tool-call arguments never raises on malformed JSON:
if the raw `arguments` string fails to parse, both fragments show the
raw string escaped verbatim; if it parses to an object and the tool is
`exec_command`, the detail block shows the `cmd` field as a
shell-prompt-styled line; if it parses and the tool is different, the
detail block pretty-prints the parsed JSON (indent 2). -/
theorem c8_tool_call_fallback
    (nameS args : String) (ts cid : Json) (tsS anchor : String) :
    (json_loads args = none →
      _render_tool_call (.tool_call ts (.str nameS) (.str args) cid) tsS anchor =
        .ok (["<a class=\"tree-node tree-role-tool\" href=\"#" ++ anchor ++ "\">" ++
              "<span class=\"tree-ts\">" ++ tsS ++ "</span> " ++
              "<span class=\"tree-content\">⚡ " ++ escape (.str nameS) ++ ": " ++
                escape (.str (String.mk (args.data.take 80))) ++ "</span></a>"],
             ["<div class=\"tool-execution pending\" id=\"" ++ anchor ++ "\">" ++
              "<div class=\"message-timestamp\">" ++ tsS ++ "</div>" ++
              "<div class=\"tool-header\"><span class=\"tool-name\">" ++
                escape (.str nameS) ++ "</span></div>" ++
              "<div class=\"tool-args\">" ++
                ("<pre>" ++ escape (.str args) ++ "</pre>") ++ "</div>" ++
              "</div>"])) ∧
    (∀ kvs cmd, json_loads args = some (.obj kvs) →
      (kvs.lookup ("cmd")).getD (.str "") = .str cmd →
      nameS = "exec_command" →
      _render_tool_call (.tool_call ts (.str nameS) (.str args) cid) tsS anchor =
        .ok (["<a class=\"tree-node tree-role-tool\" href=\"#" ++ anchor ++ "\">" ++
              "<span class=\"tree-ts\">" ++ tsS ++ "</span> " ++
              "<span class=\"tree-content\">⚡ " ++ escape (.str nameS) ++ ": " ++
                escape (.str (String.mk (cmd.data.take 80))) ++ "</span></a>"],
             ["<div class=\"tool-execution pending\" id=\"" ++ anchor ++ "\">" ++
              "<div class=\"message-timestamp\">" ++ tsS ++ "</div>" ++
              "<div class=\"tool-header\"><span class=\"tool-name\">" ++
                escape (.str nameS) ++ "</span></div>" ++
              "<div class=\"tool-args\">" ++
                ("<span class=\"tool-command\">$ " ++ escape (.str cmd) ++ "</span>") ++
                "</div>" ++
              "</div>"])) ∧
    (∀ j, json_loads args = some j → nameS ≠ "exec_command" →
      _render_tool_call (.tool_call ts (.str nameS) (.str args) cid) tsS anchor =
        .ok (["<a class=\"tree-node tree-role-tool\" href=\"#" ++ anchor ++ "\">" ++
              "<span class=\"tree-ts\">" ++ tsS ++ "</span> " ++
              "<span class=\"tree-content\">⚡ " ++ escape (.str nameS) ++ ": " ++
                escape (.str (String.mk ((dumpsC j).data.take 80))) ++ "</span></a>"],
             ["<div class=\"tool-execution pending\" id=\"" ++ anchor ++ "\">" ++
              "<div class=\"message-timestamp\">" ++ tsS ++ "</div>" ++
              "<div class=\"tool-header\"><span class=\"tool-name\">" ++
                escape (.str nameS) ++ "</span></div>" ++
              "<div class=\"tool-args\">" ++
                ("<pre>" ++ escape (.str (dumps2 j 0)) ++ "</pre>") ++ "</div>" ++
              "</div>"])) := by
  refine ⟨?_, ?_, ?_⟩
  · intro hl
    simp only [_render_tool_call]
    rw [hl]
    rfl
  · intro kvs cmd hl hcmd hname
    subst hname
    simp only [_render_tool_call]
    rw [hl]
    simp only [Json.eqStr, decide_True, if_true, Json.objGetD, pybind_ok]
    rw [hcmd]
    rfl
  · intro j hl hname
    simp only [_render_tool_call]
    rw [hl]
    have hne : (Json.str nameS).eqStr ("exec_command") = false := by
      simp [Json.eqStr, hname]
    rw [hne]
    rfl


/-- C8 witness: the claim's two concrete scenarios —
`{"cmd":"ls -la"}` renders `$ ls -la`, and unparseable `not json` is
shown verbatim. -/
theorem c8_witness :
    json_loads ("\x7b\"cmd\":\"ls -la\"\x7d") = some (.obj [("cmd", .str "ls -la")]) ∧
    json_loads ("not json") = none ∧
    _render_tool_call
        (.tool_call (.str "") (.str "exec_command")
          (.str "\x7b\"cmd\":\"ls -la\"\x7d") (.str "c1")) ("12:00:00") ("msg-1") =
      .ok (["<a class=\"tree-node tree-role-tool\" href=\"#msg-1\"><span class=\"tree-ts\">12:00:00</span> <span class=\"tree-content\">⚡ exec_command: ls -la</span></a>"],
           ["<div class=\"tool-execution pending\" id=\"msg-1\"><div class=\"message-timestamp\">12:00:00</div><div class=\"tool-header\"><span class=\"tool-name\">exec_command</span></div><div class=\"tool-args\"><span class=\"tool-command\">$ ls -la</span></div></div>"]) ∧
    _render_tool_call
        (.tool_call (.str "") (.str "exec_command") (.str "not json") (.str "c1"))
        ("12:00:00") ("msg-1") =
      .ok (["<a class=\"tree-node tree-role-tool\" href=\"#msg-1\"><span class=\"tree-ts\">12:00:00</span> <span class=\"tree-content\">⚡ exec_command: not json</span></a>"],
           ["<div class=\"tool-execution pending\" id=\"msg-1\"><div class=\"message-timestamp\">12:00:00</div><div class=\"tool-header\"><span class=\"tool-name\">exec_command</span></div><div class=\"tool-args\"><pre>not json</pre></div></div>"]) := by
  refine ⟨rfl, rfl, ?_, ?_⟩
  · exact (c8_tool_call_fallback ("exec_command") ("\x7b\"cmd\":\"ls -la\"\x7d")
      (.str "") (.str "c1") ("12:00:00") ("msg-1")).2.1
      ([("cmd", .str "ls -la")]) ("ls -la") rfl rfl rfl
  · exact (c8_tool_call_fallback ("exec_command") ("not json")
      (.str "") (.str "c1") ("12:00:00") ("msg-1")).1 rfl

/-! ## C9 — escaping of event-derived text -/

/-- `<`-counts add over concatenation. -/
theorem countLt_append (a b : String) : countLt (a ++ b) = countLt a + countLt b := by
  simp [countLt, String.data_append]

example : countLt ("</span></a>") = 2 := by simp [countLt]

/-- No branch of the escape character map emits a raw `<`. -/
theorem escapeChar_count_lt (c : Char) : (escapeChar c).count '<' = 0 := by
  unfold escapeChar
  split_ifs with h1 h2 h3 h4 h5
  · rfl
  · rfl
  · rfl
  · rfl
  · rfl
  · simp [List.count_cons, h2]

/-- `markdown.escape` output never contains a raw `<`. -/
theorem escape_no_lt (j : Json) : countLt (escape j) = 0 := by
  unfold escape
  split_ifs
  · show ((pyStr j).data.map escapeChar).flatten.count '<' = 0
    rw [List.count_eq_zero]
    intro habs
    rw [List.mem_flatten] at habs
    obtain ⟨l, hl, hmem⟩ := habs
    obtain ⟨c, _, rfl⟩ := List.mem_map.1 hl
    have h0 := escapeChar_count_lt c
    rw [List.count_eq_zero] at h0
    exact h0 hmem
  · rfl

/-- C9 amended: `escape` removes every raw `<`; the abort reason enters
the turn-aborted fragments only through `escape`, so their `<`-count is a
template constant plus the (unescaped) timestamp and anchor insertions;
the rollback count enters its fragments unescaped via `str()`.  (As
stated the claim is false: the formatted timestamp is interpolated
without escaping — see the counterexample.) -/
theorem c9_amended :
    (∀ j : Json, countLt (escape j) = 0) ∧
    (∀ (tsJ reasonJ : Json) (tsS anchor : String),
      ∃ sb ms,
        _render_turn_aborted (.turn_aborted tsJ reasonJ) tsS anchor =
          .ok ([sb], [ms]) ∧
        countLt sb = 6 + countLt tsS + countLt anchor ∧
        countLt ms = 6 + countLt tsS + countLt anchor) ∧
    (∀ (tsJ nJ : Json) (tsS anchor : String),
      ∃ sb ms,
        _render_thread_rolled_back (.thread_rolled_back tsJ nJ) tsS anchor =
          .ok ([sb], [ms]) ∧
        countLt sb = 6 + countLt tsS + countLt anchor + countLt (pyStr nJ) ∧
        countLt ms = 6 + countLt tsS + countLt anchor + countLt (pyStr nJ)) := by
  have eA1 : countLt ("<a class=\"tree-node tree-role-error\" href=\"#") = 1 := by decide
  have eA2 : countLt ("\">") = 0 := by decide
  have eA3 : countLt ("<span class=\"tree-ts\">") = 1 := by decide
  have eA4 : countLt ("</span> ") = 1 := by decide
  have eA5 : countLt ("<span class=\"tree-content\">⛔ Turn aborted: ") = 1 := by decide
  have eA6 : countLt ("</span></a>") = 2 := by decide
  have eB1 : countLt ("<div class=\"system-event error-event\" id=\"") = 1 := by decide
  have eB2 : countLt ("<div class=\"message-timestamp\">") = 1 := by decide
  have eB3 : countLt ("</div>") = 1 := by decide
  have eB4 : countLt ("<span class=\"event-label error-text\">⛔ Turn aborted: ") = 1 := by decide
  have eB5 : countLt ("</span>") = 1 := by decide
  have eC1 : countLt ("<a class=\"tree-node tree-role-system\" href=\"#") = 1 := by decide
  have eC2 : countLt ("<span class=\"tree-content\">↩ Rolled back ") = 1 := by decide
  have eC3 : countLt (" turn(s)</span></a>") = 2 := by decide
  have eD1 : countLt ("<div class=\"system-event\" id=\"") = 1 := by decide
  have eD2 : countLt ("<span class=\"event-label\">↩ Rolled back ") = 1 := by decide
  have eD3 : countLt (" turn(s)</span>") = 1 := by decide
  refine ⟨escape_no_lt, ?_, ?_⟩
  · intro tsJ reasonJ tsS anchor
    refine ⟨_, _, rfl, ?_, ?_⟩
    · simp only [countLt_append]
      rw [escape_no_lt, eA1, eA2, eA3, eA4, eA5, eA6]
      omega
    · simp only [countLt_append]
      rw [escape_no_lt, eB1, eA2, eB2, eB3, eB4, eB5]
      omega
  · intro tsJ nJ tsS anchor
    refine ⟨_, _, rfl, ?_, ?_⟩
    · simp only [countLt_append]
      rw [eC1, eA2, eA3, eA4, eC2, eC3]
      omega
    · simp only [countLt_append]
      rw [eD1, eA2, eB2, eB3, eD2, eD3]
      omega

/-- C9 counterexample: an event whose unparseable timestamp contains
markup reaches the rendered output verbatim — `escape` would have removed
the raw `<` (first conjunct), yet the emitted detail block contains the
raw `<img …` fragment inside the timestamp div. -/
theorem c9_counterexample :
    countLt (escape (.str "<img src=x onerror=alert(1)>xx")) = 0 ∧
    build_html_loop
      [.turn_aborted (.str "<img src=x onerror=alert(1)>xx") (.str "why")] 0 =
      .ok ([(1, "msg-1")],
           ["<a class=\"tree-node tree-role-error\" href=\"#msg-1\"><span class=\"tree-ts\"><img src=x onerror=</span> <span class=\"tree-content\">⛔ Turn aborted: why</span></a>"],
           ["<div class=\"system-event error-event\" id=\"msg-1\"><div class=\"message-timestamp\"><img src=x onerror=</div><span class=\"event-label error-text\">⛔ Turn aborted: why</span></div>"]) ∧
    hasSub
      ("<div class=\"system-event error-event\" id=\"msg-1\"><div class=\"message-timestamp\"><img src=x onerror=</div><span class=\"event-label error-text\">⛔ Turn aborted: why</span></div>").data
      (("<div class=\"message-timestamp\"><img src=x onerror=").data) = true := by
  refine ⟨by decide, rfl, by decide⟩

/-- C9 witness: the amended count property evaluated at a concrete
turn-aborted event whose reason contains markup. -/
theorem c9_amended_witness :
    ∃ sb ms,
      _render_turn_aborted (.turn_aborted (.str "tz") (.str "<why>")) ("12:00")
        ("msg-9") = .ok ([sb], [ms]) ∧
      countLt sb = 6 + countLt ("12:00") + countLt ("msg-9") ∧
      countLt ms = 6 + countLt ("12:00") + countLt ("msg-9") :=
  c9_amended.2.1 (.str "tz") (.str "<why>") ("12:00") ("msg-9")
